import Mathlib

/-!
# ChatApp: chat synchronisation state machine

A shallow embedding of the client-side chat logic of the ChatApp repository:
the chat view (`src/components/ChatBox/ChatBox.jsx`), the sidebar
(`src/components/LeftSidebar/LeftSidebar.jsx`), the upload helpers
(`src/lib/upload.js`, `src/utils/cloudinary.js`), the friend-request service
(`src/services/friends.js`), the notification dropdown
(`src/components/NotificationDropdown.jsx`) and the profile modal
(`src/components/ProfileModal.jsx`).  React state cells become
fields of a record, an `async` function becomes the sequence of its
synchronous segments (one segment per `await`), the document store is an
explicit value, and every effect the properties talk about (queries issued,
listeners opened, toasts shown) is recorded in the state.

Timestamps and counters are natural numbers (milliseconds, respectively
counts far below 2^53, where JavaScript numbers are exact integers).
-/

namespace ChatApp

/-! ## JavaScript helpers -/

/-- Truthiness of a value that is a string, `null` or `undefined`:
only a non-empty string is truthy. -/
def truthy : Option String → Bool
  | some s => s != ""
  | none => false

/-- White space and line terminators of ECMAScript, the characters that
`String.prototype.trim` strips. -/
def isJsWhiteSpace (c : Char) : Bool :=
  c.toNat == 0x9 || c.toNat == 0xA || c.toNat == 0xB || c.toNat == 0xC ||
  c.toNat == 0xD || c.toNat == 0x20 || c.toNat == 0xA0 || c.toNat == 0x1680 ||
  (0x2000 ≤ c.toNat && c.toNat ≤ 0x200A) ||
  c.toNat == 0x2028 || c.toNat == 0x2029 || c.toNat == 0x202F ||
  c.toNat == 0x205F || c.toNat == 0x3000 || c.toNat == 0xFEFF

/-- The function `String.prototype.trim`: strips white space from both ends. -/
def jsTrim (s : String) : String :=
  ⟨((s.data.dropWhile isJsWhiteSpace).reverse.dropWhile isJsWhiteSpace).reverse⟩

/-! ## Messages and the ChatBox state -/

/-- Page size of the message queries (`ChatBox.jsx` line 37). -/
def MESSAGES_PER_PAGE : Nat := 50

/-- The fields of a message document, and of an element of the `messages`
state.  A text message has `text`, an image message has `image`; the
"Chat created" document written by `handleChatClick` has `system` and no
sender. -/
structure Message where
  sId : Option String
  text : Option String
  image : Option String
  system : Bool
  createdAt : Nat
  id : String
deriving DecidableEq, Repr

/-- A document snapshot of the `messagesList` subcollection: the id the store
gave the document, and its data. -/
structure DocSnap where
  id : String
  data : Message
deriving DecidableEq, Repr

/-- The object `{...doc.data(), id: doc.id}` built from a snapshot
(`ChatBox.jsx` lines 270-273 and 414-420). -/
def toMessage (d : DocSnap) : Message :=
  { d.data with id := d.id }

/-- A query on a `messagesList` subcollection, ordered by `createdAt`
descending: the conversation, the `startAfter` cursor and the limit. -/
structure PageQuery where
  conversation : String
  startAfter : Option DocSnap
  limit : Nat
deriving DecidableEq, Repr

/-- The state of a mounted `ChatBox` that pagination and the live listener
read and write: the `useState` cells `messages`, `lastMessageRef`, `hasMore`,
`loading`, the ref `isLoadingMore`, and two logs of effects: the queries that
`loadMoreMessages` has handed to `getDocs`, and the error toasts shown. -/
structure ChatBoxState where
  messages : List Message
  lastMessageRef : Option DocSnap
  hasMore : Bool
  loading : Bool
  isLoadingMore : Bool
  fetches : List PageQuery
  toasts : List String
deriving DecidableEq, Repr

/-- State of a freshly mounted `ChatBox` with no messages passed in
(`ChatBox.jsx` lines 43-56): empty list, no cursor, `hasMore = true`. -/
def ChatBoxState.initial : ChatBoxState :=
  { messages := [], lastMessageRef := none, hasMore := true, loading := false,
    isLoadingMore := false, fetches := [], toasts := [] }

/-! ## `loadMoreMessages` (`ChatBox.jsx` lines 251-318) -/

/-- The early-return test of line 252:
`!messagesId || isLoadingMore.current || !hasMore`. -/
def loadMoreBlocked (messagesId : Option String) (s : ChatBoxState) : Bool :=
  !truthy messagesId || s.isLoadingMore || !s.hasMore

/-- Lines 254-267, the segment up to `await getDocs(q)`: raise the in-flight
flag and `loading`, and issue the query that starts after `lastMessageRef`. -/
def loadMoreStart (cid : String) (s : ChatBoxState) : ChatBoxState :=
  { s with
    isLoadingMore := true
    loading := true
    fetches := s.fetches ++ [{ conversation := cid, startAfter := s.lastMessageRef,
                               limit := MESSAGES_PER_PAGE }] }

/-- The updater of lines 290-294, `prev => [...newMessages.reverse(), ...prev]`.
`Array.prototype.reverse` reverses `newMessages` in place and returns it, so
one evaluation yields both the new content of the `newMessages` array (first
component) and the updated message list (second component). -/
def loadMoreUpdater (newMessages prev : List Message) : List Message × List Message :=
  (newMessages.reverse, newMessages.reverse ++ prev)

/-- Lines 268-317, the segment after `await getDocs(q)`.  `result` is what the
store answered: a rejection, or the documents of the page, newest first.  The
updater is evaluated once, on the list held when the update is applied. -/
def loadMoreResolve (s : ChatBoxState) (result : Except String (List DocSnap)) :
    ChatBoxState :=
  match result with
  | .error _ =>
    { s with toasts := s.toasts ++ ["Error loading messages"]
             isLoadingMore := false
             loading := false }
  | .ok docs =>
    let newMessages := docs.map toMessage
    let s1 := if newMessages.length < MESSAGES_PER_PAGE then { s with hasMore := false } else s
    let s2 :=
      if newMessages.length > 0 then
        { s1 with lastMessageRef := docs.getLast?
                  messages := (loadMoreUpdater newMessages s1.messages).2 }
      else s1
    { s2 with isLoadingMore := false, loading := false }

/-- A whole call of `loadMoreMessages` with nothing interleaved between the
query and its answer. -/
def loadMoreMessages (messagesId : Option String) (s : ChatBoxState)
    (result : Except String (List DocSnap)) : ChatBoxState :=
  if loadMoreBlocked messagesId s then s
  else loadMoreResolve (loadMoreStart (messagesId.getD "") s) result

/-! ## The live message listener (`ChatBox.jsx` lines 407-435) -/

/-- Lines 408-410: the answer to the initial `getDocs(q)` seeds `hasMore`. -/
def setInitialHasMore (s : ChatBoxState) (initialDocs : List DocSnap) : ChatBoxState :=
  { s with hasMore := initialDocs.length == MESSAGES_PER_PAGE }

/-- Lines 412-431, the `onSnapshot` callback, run on every emission of the live
query; `docs` is the emitted snapshot, newest first. -/
def onMessageSnapshot (s : ChatBoxState) (docs : List DocSnap) : ChatBoxState :=
  let newMessages := docs.map toMessage
  if newMessages.length > 0 then
    { s with lastMessageRef := docs.getLast?, messages := newMessages.reverse }
  else s

/-- Lines 432-435, the error callback of the live listener. -/
def onMessageSnapshotError (s : ChatBoxState) : ChatBoxState :=
  { s with toasts := s.toasts ++ ["Error loading messages"] }

/-! ## Runs of the pagination state machine -/

/-- What can happen to a mounted `ChatBox` with conversation `cid`: the live
listener emits, the initial page count arrives, `loadMoreMessages` is called,
or the pending `getDocs` of a running `loadMoreMessages` settles. -/
inductive ChatEvent where
  | snapshot (docs : List DocSnap)
  | initialPage (docs : List DocSnap)
  | loadCall
  | loadSettle (result : Except String (List DocSnap))

/-- One event.  A call behind the guard of line 252 does nothing; a `getDocs`
answer can only arrive while a call is in flight. -/
def stepChat (messagesId : Option String) (s : ChatBoxState) : ChatEvent → ChatBoxState
  | .snapshot docs => onMessageSnapshot s docs
  | .initialPage docs => setInitialHasMore s docs
  | .loadCall =>
    if loadMoreBlocked messagesId s then s else loadMoreStart (messagesId.getD "") s
  | .loadSettle result =>
    if s.isLoadingMore then loadMoreResolve s result else s

/-- A sequence of events, from left to right. -/
def runChat (messagesId : Option String) (s : ChatBoxState) (es : List ChatEvent) :
    ChatBoxState :=
  es.foldl (stepChat messagesId) s

/-! ## The message-listener effect of `ChatBox` (`ChatBox.jsx` lines 385-444) -/

/-- A map from user id to number held in a document (`unreadCount`): the keys
in insertion order with their values. -/
abbrev JsMap := List (String × Nat)

/-- Assignment `m[k] = v` on such a map: overwrite the key where it is, or add
it at the end. -/
def JsMap.set (m : JsMap) (k : String) (v : Nat) : JsMap :=
  if (m.lookup k).isSome then m.map (fun p => if p.1 == k then (k, v) else p)
  else m ++ [(k, v)]

/-- The conversation summary document `messages/{conversationId}`. -/
structure ConvDoc where
  participants : List String
  lastMessage : Option String
  lastMessageAt : Option Nat
  unreadCount : Option JsMap
  typing : List (String × Option Nat)
  createdAt : Option Nat := none
deriving DecidableEq, Repr

/-- The props and context values the effect depends on: `messagesId`,
`chat?.userData?.id` and `userData.id`. -/
structure ChatProps where
  messagesId : Option String
  chatUserId : Option String
  userId : String
deriving DecidableEq, Repr

/-- A mounted chat view: the `ChatBox` state, the conversations whose live
message listener is open (subscribed with `onSnapshot` and not unsubscribed),
the conversations whose initial page count has been requested, and the cleanup
React holds for the message-listener effect (`some cid`: a function that
unsubscribes the listener of `cid`; `none`: the effect returned nothing). -/
structure ChatView where
  box : ChatBoxState
  listeners : List String
  initialFetches : List String
  cleanup : Option String
deriving DecidableEq, Repr

/-- Lines 390-442, the callback given to `getDoc(messagesDocRef).then`;
`docSnap` is the summary document if it exists.  The function this callback
returns at lines 437-440 becomes the value of the promise built by `.then`,
which nothing reads. -/
def messageListenerThen (p : ChatProps) (docSnap : Option ConvDoc) (v : ChatView) :
    ChatView :=
  match docSnap with
  | none => v
  | some chatData =>
    if !chatData.participants.contains p.userId then
      { v with box := { v.box with
          toasts := v.box.toasts ++ ["You don't have access to this chat"] } }
    else
      let cid := p.messagesId.getD ""
      { v with initialFetches := v.initialFetches ++ [cid]
               listeners := v.listeners ++ [cid] }

/-- The effect body, lines 386-443, with the summary read answered by
`docSnap`: the view afterwards, and the value the effect function itself
returns to React as its cleanup.  The body has no `return` of its own, so
that value is `undefined` in both branches. -/
def messageListenerEffect (p : ChatProps) (docSnap : Option ConvDoc) (v : ChatView) :
    ChatView × Option String :=
  if truthy p.messagesId && truthy p.chatUserId then
    (messageListenerThen p docSnap v, none)
  else (v, none)

/-- React running a cleanup it holds: a held unsubscribe closes that listener. -/
def runCleanup (c : Option String) (v : ChatView) : ChatView :=
  match c with
  | none => v
  | some cid => { v with listeners := v.listeners.erase cid }

/-- A render in which a dependency of the effect changed (mount, or switch to
another conversation): React runs the cleanup of the previous run, runs the
effect, and keeps what it returned as the next cleanup. -/
def applyProps (p : ChatProps) (docSnap : Option ConvDoc) (v : ChatView) : ChatView :=
  let r := messageListenerEffect p docSnap (runCleanup v.cleanup v)
  { r.1 with cleanup := r.2 }

/-- Unmounting the view: React runs the cleanup it holds. -/
def unmountView (v : ChatView) : ChatView :=
  { runCleanup v.cleanup v with cleanup := none }

/-- The store emits a snapshot of the live query of conversation `cid`: every
open listener of that conversation runs its callback. -/
def deliverSnapshot (cid : String) (docs : List DocSnap) (v : ChatView) : ChatView :=
  if v.listeners.contains cid then { v with box := onMessageSnapshot v.box docs } else v

/-- A view before its first effect run. -/
def ChatView.initial : ChatView :=
  { box := ChatBoxState.initial, listeners := [], initialFetches := [], cleanup := none }

/-! ## `sendMessage` (`ChatBox.jsx` lines 63-122) -/

/-- An element of a user's `chatsData` array. -/
structure ChatListEntry where
  rId : String
  messageId : String
  lastMessage : Option String
  updatedAt : Option Nat
  messageSeen : Option Bool
deriving DecidableEq, Repr

/-- An element of a user's `notifications` array (`services/friends.js` lines
98-104). -/
structure Notification where
  type : String
  «from» : String
  fromName : Option String
  timestamp : Nat
  senderAvatar : Option String
deriving DecidableEq, Repr

/-- A document of the collection `friendRequests` (`services/friends.js` lines
83-90). -/
structure FriendRequest where
  senderId : String
  senderName : Option String
  senderPhoto : Option String
  recipientId : String
  status : String
  createdAt : Nat
deriving DecidableEq, Repr

/-- The fields of a document of the collection `users` that the chat list and
the friend workflow read and write: the array `chats` of user ids (absent
until the first conversation is opened), `friends` and `notifications`. -/
structure UserDoc where
  chats : Option (List String)
  friends : List String
  notifications : List Notification
deriving DecidableEq, Repr

/-- The part of the document store the client works on: the collection
`messages` of conversation summaries, their `messagesList` subcollections, the
`chatsData` arrays of the collection `chats`, the collection `users` and the
collection `friendRequests`, each keyed by document id. -/
structure Store where
  messages : List (String × ConvDoc)
  messagesList : List (String × List DocSnap)
  chats : List (String × List ChatListEntry)
  users : List (String × UserDoc) := []
  friendRequests : List (String × FriendRequest) := []
deriving DecidableEq, Repr

/-- Write the document with key `k` of a collection. -/
def putDoc {α : Type} (k : String) (v : α) (c : List (String × α)) : List (String × α) :=
  if (c.lookup k).isSome then c.map (fun p => if p.1 == k then (k, v) else p)
  else c ++ [(k, v)]

/-- The function `Array.prototype.findIndex`; `none` stands for `-1`. -/
def findIndex {α : Type} (p : α → Bool) : List α → Option Nat
  | [] => none
  | a :: as => if p a then some 0 else (findIndex p as).map (· + 1)

/-- Replace element `i` of an array by `f` of it. -/
def modifyAt {α : Type} (f : α → α) : Nat → List α → List α
  | _, [] => []
  | 0, a :: as => f a :: as
  | i + 1, a :: as => a :: modifyAt f i as

/-- The store calls `sendMessage` awaits. -/
inductive StoreCall where
  | addMessage
  | getChat
  | updateChat
  | getUserChats (uid : String)
  | updateUserChats (uid : String)
deriving DecidableEq, Repr

/-- What surrounds one call of `sendMessage`: the sender `userData.id`, the
recipient `chat.userData.id`, the prop `messagesId`, the clock readings in the
order they are taken (0: `createdAt`, 1: `id`, 2: `lastMessageAt`, 3 and 4:
`updatedAt` of the two loop rounds), the id `addDoc` gives the new document,
and which store calls reject, with what message. -/
structure SendEnv where
  userId : String
  recipientId : String
  messagesId : Option String
  now : Nat → Nat
  newDocId : String
  fails : StoreCall → Option String

/-- What a call leaves behind: the store, the `input` cell, and the error
toasts of the `catch` block. -/
structure SendOutcome where
  store : Store
  input : String
  toasts : List String
deriving DecidableEq, Repr

/-- One round of the loop of lines 98-116 for the user `uid`: the store
afterwards and the rejection that ended the round, if any. -/
def updateUserChat (env : SendEnv) (cid input : String) (reading : Nat) (uid : String)
    (store : Store) : Store × Option String :=
  match env.fails (.getUserChats uid) with
  | some e => (store, some e)
  | none =>
    match store.chats.lookup uid with
    | none => (store, none)
    | some chatsData =>
      match findIndex (fun c => c.messageId == cid) chatsData with
      | none => (store, none)
      | some chatIndex =>
        let chatsData1 := modifyAt (fun c =>
          let c1 := { c with lastMessage := some input, updatedAt := some (env.now reading) }
          if c1.rId == env.userId then { c1 with messageSeen := some false } else c1)
          chatIndex chatsData
        match env.fails (.updateUserChats uid) with
        | some e => (store, some e)
        | none => ({ store with chats := putDoc uid chatsData1 store.chats }, none)

/-- The function `sendMessage` called with `input` in the input cell. -/
def sendMessage (env : SendEnv) (input : String) (store : Store) : SendOutcome :=
  if truthy (some (jsTrim input)) && truthy env.messagesId then
    let cid := env.messagesId.getD ""
    let messageData : Message :=
      { sId := some env.userId, text := some (jsTrim input), image := none, system := false,
        createdAt := env.now 0, id := toString (env.now 1) }
    match env.fails .addMessage with
    | some e => { store := store, input := "", toasts := [e] }
    | none =>
      let messagesList1 := putDoc cid ((store.messagesList.lookup cid).getD [] ++
        [{ id := env.newDocId, data := messageData }]) store.messagesList
      let st1 := { store with messagesList := messagesList1 }
      match env.fails .getChat with
      | some e => { store := st1, input := "", toasts := [e] }
      | none =>
        match st1.messages.lookup cid with
        | none =>
          { store := st1, input := "",
            toasts := ["Cannot read properties of undefined (reading 'unreadCount')"] }
        | some chatData =>
          let unreadCount := chatData.unreadCount.getD []
          let unreadCount1 := JsMap.set unreadCount env.recipientId
            ((unreadCount.lookup env.recipientId).getD 0 + 1)
          match env.fails .updateChat with
          | some e => { store := st1, input := "", toasts := [e] }
          | none =>
            let chatData1 := { chatData with lastMessage := some (jsTrim input)
                                             lastMessageAt := some (env.now 2)
                                             unreadCount := some unreadCount1 }
            let st2 := { st1 with messages := putDoc cid chatData1 st1.messages }
            match updateUserChat env cid input 3 env.recipientId st2 with
            | (st3, some e) => { store := st3, input := "", toasts := [e] }
            | (st3, none) =>
              match updateUserChat env cid input 4 env.userId st3 with
              | (st4, some e) => { store := st4, input := "", toasts := [e] }
              | (st4, none) => { store := st4, input := "", toasts := [] }
  else { store := store, input := input, toasts := [] }

/-- The assignments of lines 106-110 applied to the chat-list entry `c`:
`lastMessage = input`, `updatedAt = Date.now()`, and `messageSeen = false`
when `rId` is the sender. -/
def sentEntry (env : SendEnv) (input : String) (reading : Nat) (c : ChatListEntry) :
    ChatListEntry :=
  let c1 := { c with lastMessage := some input, updatedAt := some (env.now reading) }
  if c1.rId == env.userId then { c1 with messageSeen := some false } else c1

/-! ## Image attachments (`ChatBox.jsx` lines 137-222, `lib/upload.js`,
`utils/cloudinary.js`) -/

/-- The method `String.prototype.startsWith`. -/
def jsStartsWith (s pre : String) : Bool :=
  List.isPrefixOf pre.data s.data

/-- A file chosen in the file input: name, MIME type and size in bytes. -/
structure ImageFile where
  name : String
  type : String
  size : Nat
deriving DecidableEq, Repr

/-- What an upload ends with: the URL returned, or the message of the error
thrown. -/
inductive UploadResult where
  | url (u : String)
  | error (msg : String)
deriving DecidableEq, Repr

/-- What an upload call leaves behind: its result and the files it has
posted to the upload service. -/
structure UploadOutcome where
  result : UploadResult
  contacted : List ImageFile
deriving DecidableEq, Repr

/-- The function `uploadToCloudinary` (`utils/cloudinary.js` lines 8-38).
`service f` is the answer of the upload service to a POST of `f`: the
`secure_url` of an ok response, or a failure (rejected fetch or non-ok
response), which lines 32-37 turn into one fixed error. -/
def uploadToCloudinary (service : ImageFile → UploadResult) (file : Option ImageFile) :
    UploadOutcome :=
  match file with
  | none => { result := .error "No file provided", contacted := [] }
  | some f =>
    if !jsStartsWith f.type "image/" then
      { result := .error "File must be an image", contacted := [] }
    else
      match service f with
      | .url u => { result := .url u, contacted := [f] }
      | .error _ =>
        { result := .error
            "Failed to upload image. Please try again or choose a different image.",
          contacted := [f] }

/-- The function `upload` (`lib/upload.js` lines 3-21); its `catch` rethrows
the error it caught. -/
def upload (service : ImageFile → UploadResult) (file : Option ImageFile) : UploadOutcome :=
  match file with
  | none => { result := .error "No file provided", contacted := [] }
  | some f =>
    if !jsStartsWith f.type "image/" then
      { result := .error "File must be an image", contacted := [] }
    else uploadToCloudinary service (some f)

/-- The cells of `ChatBox` around image sending: `selectedImage`,
`imagePreview`, `loading`, the file handed to the `FileReader` whose result is
awaited, the error and success toasts shown, and the files posted to the
upload service. -/
structure ImageState where
  selectedImage : Option ImageFile
  imagePreview : Option String
  loading : Bool
  reading : Option ImageFile
  errors : List String
  successes : List String
  contacted : List ImageFile
deriving DecidableEq, Repr

/-- The function `handleImageSelect` (lines 137-161) for the first file of
the change event, if any. -/
def handleImageSelect (file : Option ImageFile) (s : ImageState) : ImageState :=
  match file with
  | none => s
  | some f =>
    if !jsStartsWith f.type "image/" then
      { s with errors := s.errors ++ ["Please select an image file"] }
    else if f.size > 5 * 1024 * 1024 then
      { s with errors := s.errors ++ ["Image size should be less than 5MB"] }
    else
      { s with selectedImage := some f, reading := some f }

/-- The `onloadend` handler of lines 157-159, with the data URL read. -/
def onReaderLoadEnd (result : String) (s : ImageState) : ImageState :=
  { s with imagePreview := some result, reading := none }

/-- One round of the loop of lines 194-209 of `sendImage` for the user `uid`. -/
def updateUserChatImage (env : SendEnv) (cid : String) (reading : Nat) (uid : String)
    (store : Store) : Store × Option String :=
  match env.fails (.getUserChats uid) with
  | some e => (store, some e)
  | none =>
    match store.chats.lookup uid with
    | none => (store, none)
    | some chatsData =>
      match findIndex (fun c => c.messageId == cid) chatsData with
      | none => (store, none)
      | some chatIndex =>
        let chatsData1 := modifyAt (fun c =>
          { c with lastMessage := some "Image", updatedAt := some (env.now reading) })
          chatIndex chatsData
        match env.fails (.updateUserChats uid) with
        | some e => (store, some e)
        | none => ({ store with chats := putDoc uid chatsData1 store.chats }, none)

/-- The `catch` and `finally` blocks of `sendImage` (lines 216-221). -/
def sendImageFailed (s : ImageState) (store : Store) : ImageState × Store :=
  ({ s with errors := s.errors ++ ["Failed to send image. Please try again."]
            loading := false }, store)

/-- The function `sendImage` (lines 168-222).  `updateDoc` on the summary
rejects when the document does not exist. -/
def sendImage (env : SendEnv) (service : ImageFile → UploadResult) (s : ImageState)
    (store : Store) : ImageState × Store :=
  if s.selectedImage.isNone || !truthy env.messagesId then (s, store)
  else
    let cid := env.messagesId.getD ""
    let up := upload service s.selectedImage
    let s1 := { s with loading := true, contacted := s.contacted ++ up.contacted }
    match up.result with
    | .error _ => sendImageFailed s1 store
    | .url fileUrl =>
      let messageData : Message :=
        { sId := some env.userId, text := none, image := some fileUrl, system := false,
          createdAt := env.now 0, id := toString (env.now 1) }
      match env.fails .addMessage with
      | some _ => sendImageFailed s1 store
      | none =>
        let messagesList1 := putDoc cid ((store.messagesList.lookup cid).getD [] ++
          [{ id := env.newDocId, data := messageData }]) store.messagesList
        let st1 := { store with messagesList := messagesList1 }
        match env.fails .updateChat, st1.messages.lookup cid with
        | some _, _ => sendImageFailed s1 st1
        | none, none => sendImageFailed s1 st1
        | none, some chatData =>
          let chatData1 := { chatData with lastMessage := some "Image"
                                           lastMessageAt := some (env.now 2) }
          let st2 := { st1 with messages := putDoc cid chatData1 st1.messages }
          match updateUserChatImage env cid 3 env.recipientId st2 with
          | (st3, some _) => sendImageFailed s1 st3
          | (st3, none) =>
            match updateUserChatImage env cid 4 env.userId st3 with
            | (st4, some _) => sendImageFailed s1 st4
            | (st4, none) =>
              ({ s1 with selectedImage := none
                         imagePreview := none
                         successes := s1.successes ++ ["Image sent successfully"]
                         loading := false }, st4)

/-! ## The conversation id (`LeftSidebar.jsx` lines 66 and 136, `Chat.jsx`
line 142) -/

/-- The UTF-16 code units of a character: one unit below U+10000, a surrogate
pair from there on. -/
def utf16Units (c : Char) : List Nat :=
  if c.toNat < 0x10000 then [c.toNat]
  else [0xD800 + (c.toNat - 0x10000) / 0x400, 0xDC00 + (c.toNat - 0x10000) % 0x400]

/-- A string as JavaScript holds it: its sequence of UTF-16 code units. -/
def utf16 (s : String) : List Nat :=
  s.data.flatMap utf16Units

/-- Lexicographic "less than" on sequences of code units. -/
def codeUnitsLt : List Nat → List Nat → Bool
  | _, [] => false
  | [], _ :: _ => true
  | x :: xs, y :: ys => decide (x < y) || (x == y && codeUnitsLt xs ys)

/-- The comparison `Array.prototype.sort` uses when it is given no comparator:
strings are compared by their code units. -/
def jsStringLt (a b : String) : Bool :=
  codeUnitsLt (utf16 a) (utf16 b)

/-- The array `[a, b].sort()`: the sort is stable, so the two elements are
exchanged exactly when `b` is less than `a`. -/
def sortPair (a b : String) : String × String :=
  if jsStringLt b a then (b, a) else (a, b)

/-- The expression `[a, b].sort().join('_')`. -/
def sortJoin (a b : String) : String :=
  (sortPair a b).1 ++ "_" ++ (sortPair a b).2

/-- The id the friends listener of the sidebar computes for the current user
and a friend (`LeftSidebar.jsx` line 66). -/
def friendChatId (userId friendUid : String) : String :=
  sortJoin userId friendUid

/-- The id `onChatSelect` of the chat page navigates to (`Chat.jsx` line 142). -/
def onChatSelectChatId (userId chatUid : String) : String :=
  sortJoin userId chatUid

/-! ## `handleChatClick` (`LeftSidebar.jsx` lines 121-203) -/

/-- The store calls `handleChatClick` awaits. -/
inductive ClickCall where
  | getSummary
  | setSummary
  | addSystemMessage
  | updateSummary
  | getUser
  | updateUser
deriving DecidableEq, Repr

/-- What surrounds one call of `handleChatClick`: `userData.id`, the `uid` of
the clicked chat, the server time `serverTimestamp()` resolves to, the clock
readings (0: `new Date()`, 1: `Date.now()`), the id `addDoc` gives the system
message, and which store calls reject. -/
structure ClickEnv where
  currentUserId : Option String
  selectedUserId : Option String
  serverNow : Nat
  now : Nat → Nat
  newDocId : String
  fails : ClickCall → Option String

/-- What a call leaves behind: the store, the values handed to `setChatUser`
(the uid of the clicked user) and `setMessagesId` if they were called, whether
`onChatSelect` was called, and the error toasts. -/
structure ClickOutcome where
  store : Store
  chatUser : Option String
  messagesId : Option String
  selected : Bool
  toasts : List String
deriving DecidableEq, Repr

/-- The function `arrayUnion` of the store on an array field: add the element
unless the array holds it already. -/
def arrayUnion {α : Type} [DecidableEq α] (xs : List α) (x : α) : List α :=
  if x ∈ xs then xs else xs ++ [x]

/-- Lines 140-175: get or create the summary document `chatId`; the store
afterwards, and whether a call was rejected. -/
def openSummary (env : ClickEnv) (currentUserId selectedUserId chatId : String)
    (store : Store) : Store × Bool :=
  match env.fails .getSummary with
  | some _ => (store, true)
  | none =>
    match store.messages.lookup chatId with
    | none =>
      match env.fails .setSummary with
      | some _ => (store, true)
      | none =>
        let summary : ConvDoc :=
          { participants := [currentUserId, selectedUserId]
            createdAt := some env.serverNow
            lastMessage := none
            lastMessageAt := some env.serverNow
            unreadCount := some (JsMap.set (JsMap.set [] currentUserId 0) selectedUserId 0)
            typing := [] }
        let st1 := { store with messages := putDoc chatId summary store.messages }
        match env.fails .addSystemMessage with
        | some _ => (st1, true)
        | none =>
          let systemMessage : Message :=
            { sId := none, text := some "Chat created", image := none, system := true,
              createdAt := env.now 0, id := toString (env.now 1) }
          let messagesList1 := putDoc chatId ((st1.messagesList.lookup chatId).getD [] ++
            [{ id := env.newDocId, data := systemMessage }]) st1.messagesList
          ({ st1 with messagesList := messagesList1 }, false)
    | some chatData =>
      let unreadCount := JsMap.set (chatData.unreadCount.getD []) currentUserId 0
      match env.fails .updateSummary with
      | some _ => (store, true)
      | none =>
        let chatData1 := { chatData with unreadCount := some unreadCount }
        ({ store with messages := putDoc chatId chatData1 store.messages }, false)

/-- Lines 177-192: record the clicked user in the `chats` array of the current
user's document; the store afterwards, and whether a call was rejected. -/
def recordChat (env : ClickEnv) (currentUserId selectedUserId : String) (store : Store) :
    Store × Bool :=
  match env.fails .getUser with
  | some _ => (store, true)
  | none =>
    match store.users.lookup currentUserId with
    | none => (store, false)
    | some userData =>
      match userData.chats with
      | none =>
        match env.fails .updateUser with
        | some _ => (store, true)
        | none =>
          let userData1 := { userData with chats := some [selectedUserId] }
          ({ store with users := putDoc currentUserId userData1 store.users }, false)
      | some chats =>
        if !chats.contains selectedUserId then
          match env.fails .updateUser with
          | some _ => (store, true)
          | none =>
            let userData1 := { userData with chats := some (arrayUnion chats selectedUserId) }
            ({ store with users := putDoc currentUserId userData1 store.users }, false)
        else (store, false)

/-- The function `handleChatClick`. -/
def handleChatClick (env : ClickEnv) (store : Store) : ClickOutcome :=
  if !truthy env.currentUserId || !truthy env.selectedUserId then
    { store := store, chatUser := none, messagesId := none, selected := false, toasts := [] }
  else
    let currentUserId := env.currentUserId.getD ""
    let selectedUserId := env.selectedUserId.getD ""
    let chatId := sortJoin currentUserId selectedUserId
    match openSummary env currentUserId selectedUserId chatId store with
    | (st1, true) =>
      { store := st1, chatUser := some selectedUserId, messagesId := some chatId,
        selected := false, toasts := ["Failed to start chat. Please try again."] }
    | (st1, false) =>
      match recordChat env currentUserId selectedUserId st1 with
      | (st2, true) =>
        { store := st2, chatUser := some selectedUserId, messagesId := some chatId,
          selected := false, toasts := ["Failed to start chat. Please try again."] }
      | (st2, false) =>
        { store := st2, chatUser := some selectedUserId, messagesId := some chatId,
          selected := true, toasts := [] }

/-! ## `sendFriendRequest` (`services/friends.js` lines 66-109) -/

/-- The `sender` object passed to `sendFriendRequest`. -/
structure Sender where
  uid : Option String
  name : Option String
  avatar : Option String
deriving DecidableEq, Repr

/-- The store calls `sendFriendRequest` awaits. -/
inductive FriendCall where
  | addRequest
  | updateRecipient
deriving DecidableEq, Repr

/-- What surrounds one call of `sendFriendRequest`: the server time, the
reading of `Date.now()`, the id `addDoc` gives the request, and which store
calls reject. -/
structure FriendEnv where
  serverNow : Nat
  now : Nat
  newDocId : String
  fails : FriendCall → Option String

/-- What a call leaves behind: the store, and the message of the error it
threw, if any. -/
structure FriendOutcome where
  store : Store
  thrown : Option String
deriving DecidableEq, Repr

/-- The function `sendFriendRequest`; `sender` is `none` when the argument is
`null` or `undefined`.  `updateDoc` rejects when the recipient's document does
not exist. -/
def sendFriendRequest (env : FriendEnv) (sender : Option Sender)
    (recipientId : Option String) (store : Store) : FriendOutcome :=
  if !truthy (sender.bind (fun sd => sd.uid)) then
    { store := store, thrown := some "Sender ID is required" }
  else if !truthy recipientId then
    { store := store, thrown := some "Recipient ID is required" }
  else
    let uid := (sender.bind (fun sd => sd.uid)).getD ""
    let name := sender.bind (fun sd => sd.name)
    let avatar := sender.bind (fun sd => sd.avatar)
    let rid := recipientId.getD ""
    let friendRequestData : FriendRequest :=
      { senderId := uid, senderName := name
        senderPhoto := if truthy avatar then avatar else none
        recipientId := rid, status := "pending", createdAt := env.serverNow }
    match env.fails .addRequest with
    | some e => { store := store, thrown := some e }
    | none =>
      let st1 := { store with
        friendRequests := store.friendRequests ++ [(env.newDocId, friendRequestData)] }
      let notificationData : Notification :=
        { type := "friendRequest", «from» := uid, fromName := name, timestamp := env.now
          senderAvatar := if truthy avatar then avatar else none }
      match env.fails .updateRecipient, st1.users.lookup rid with
      | some e, _ => { store := st1, thrown := some e }
      | none, none => { store := st1, thrown := some "No document to update" }
      | none, some userData =>
        let userData1 := { userData with
          notifications := arrayUnion userData.notifications notificationData }
        { store := { st1 with users := putDoc rid userData1 st1.users }, thrown := none }

/-! ## `convertTimestamp` (`ChatBox.jsx` lines 124-135) -/

/-- The function `convertTimestamp` on the local hour and minute of the
timestamp (`date.getHours()`, `date.getMinutes()`); a number concatenated with
a string is written in decimal without padding. -/
def convertTimestamp (hour minute : Nat) : String :=
  if hour > 12 then toString (hour - 12) ++ ":" ++ toString minute ++ " PM"
  else toString hour ++ ":" ++ toString minute ++ " AM"

/-! ## Accepting and rejecting a friend request
(`components/NotificationDropdown.jsx` lines 21-109) -/

/-- The store calls of `handleAcceptRequest` and `handleRejectRequest`. -/
inductive NotifCall where
  | getSender
  | updateUser
  | updateSender
  | queryRequests
  | deleteRequest (docId : String)
deriving DecidableEq, Repr

/-- What surrounds one call: the `userData` prop, which is the object that
`loadUserData` put into the context (`context/AppContext.jsx` lines 20-25): its
`id` and its `friends` array as they were read then; the senders whose entry
in `processingIds` is true; and which store calls reject. -/
structure NotifEnv where
  userId : String
  userFriends : Option (List String)
  processingIds : List String
  fails : NotifCall → Option String

/-- What a call leaves behind: the store and the toasts shown. -/
structure NotifOutcome where
  store : Store
  successes : List String
  infos : List String
  errors : List String
deriving DecidableEq, Repr

/-- The function `arrayRemove` of the store on an array field: remove every
element equal to the given one. -/
def arrayRemove {α : Type} [DecidableEq α] (xs : List α) (x : α) : List α :=
  xs.filter (fun y => decide (y ≠ x))

/-- An `updateDoc` of the document `uid` of `users` with the update `f`:
the store afterwards and whether the call was rejected (by the store, or
because the document does not exist). -/
def updateUserDoc (rejected : Option String) (uid : String) (f : UserDoc → UserDoc)
    (store : Store) : Store × Bool :=
  match rejected, store.users.lookup uid with
  | some _, _ => (store, true)
  | none, none => (store, true)
  | none, some u => ({ store with users := putDoc uid (f u) store.users }, false)

/-- Lines 50-57 and 87-94: query the pending requests from `sender` to
`userId` and delete each of them; every `deleteDoc` is issued, and the result
is a failure when the query or one of the deletes is rejected. -/
def deletePendingRequests (env : NotifEnv) (sender : String) (store : Store) :
    Store × Bool :=
  match env.fails .queryRequests with
  | some _ => (store, true)
  | none =>
    let isMatch := fun (p : String × FriendRequest) =>
      p.2.senderId == sender && p.2.recipientId == env.userId && p.2.status == "pending"
    let requestDocs := store.friendRequests.filter isMatch
    let kept := store.friendRequests.filter
      (fun p => !isMatch p || (env.fails (.deleteRequest p.1)).isSome)
    ({ store with friendRequests := kept },
      requestDocs.any (fun p => (env.fails (.deleteRequest p.1)).isSome))

/-- The function `handleAcceptRequest` for the notification `n`. -/
def handleAcceptRequest (env : NotifEnv) (n : Notification) (store : Store) :
    NotifOutcome :=
  if env.processingIds.contains n.«from» then
    { store := store, successes := [], infos := [], errors := [] }
  else
    let failed (st : Store) : NotifOutcome :=
      { store := st, successes := [], infos := []
        errors := ["Failed to accept friend request"] }
    match env.fails .getSender, store.users.lookup n.«from» with
    | some _, _ => failed store
    | none, none => failed store
    | none, some senderData =>
      let w1 := updateUserDoc (env.fails .updateUser) env.userId
        (fun u => { u with friends := env.userFriends.getD [] ++ [n.«from»]
                           notifications := arrayRemove u.notifications n }) store
      let w2 := updateUserDoc (env.fails .updateSender) n.«from»
        (fun u => { u with friends := senderData.friends ++ [env.userId] }) w1.1
      if w1.2 || w2.2 then failed w2.1
      else
        match deletePendingRequests env n.«from» w2.1 with
        | (st3, true) => failed st3
        | (st3, false) =>
          { store := st3, successes := ["Friend request accepted!"], infos := []
            errors := [] }

/-- The function `handleRejectRequest` for the notification `n`. -/
def handleRejectRequest (env : NotifEnv) (n : Notification) (store : Store) :
    NotifOutcome :=
  if env.processingIds.contains n.«from» then
    { store := store, successes := [], infos := [], errors := [] }
  else
    let failed (st : Store) : NotifOutcome :=
      { store := st, successes := [], infos := []
        errors := ["Failed to reject friend request"] }
    match updateUserDoc (env.fails .updateUser) env.userId
        (fun u => { u with notifications := arrayRemove u.notifications n }) store with
    | (st1, true) => failed st1
    | (st1, false) =>
      match deletePendingRequests env n.«from» st1 with
      | (st2, true) => failed st2
      | (st2, false) =>
        { store := st2, successes := [], infos := ["Friend request rejected"]
          errors := [] }

/-! ## The chat list of the sidebar (`LeftSidebar.jsx` lines 57-114,
`context/AppContext.jsx` lines 57-68) -/

/-- The fields of the `userData` object of a chat item that the chat list
reads: `id`, `uid`, `name` and `lastSeen`, each absent or present. -/
structure ItemUser where
  id : Option String
  uid : Option String
  name : Option String
  lastSeen : Option Nat
deriving DecidableEq, Repr

/-- An element of `chatData` or `friendsData`: the `userData` object, the
`rId` and `messageId` of a persisted entry, `unreadCount`, and the value of
`lastMessage?.timestamp?.seconds`. -/
structure ChatItem where
  userData : ItemUser
  rId : Option String
  messageId : Option String
  unreadCount : Option Nat
  lastMessageSeconds : Option Nat
deriving DecidableEq, Repr

/-- The data of the user document `signup` writes (`config/firebase.js` lines
37-71): it has `id`, `name` and `lastSeen = Date.now()`, and no field `uid`. -/
def signupUserData (uid name : String) (timestamp : Nat) : ItemUser :=
  { id := some uid, uid := none, name := some name, lastSeen := some timestamp }

/-- The element `{ ...item, userData }` the chat-list listener builds from a
persisted entry and the data of the document `users/{item.rId}`
(`context/AppContext.jsx` lines 59-66); the entry's `lastMessage` is a string,
which has no `timestamp`. -/
def chatDataItem (item : ChatListEntry) (userData : ItemUser) : ChatItem :=
  { userData := userData, rId := some item.rId, messageId := some item.messageId,
    unreadCount := none, lastMessageSeconds := none }

/-- The element the friends listener builds from the document `doc` of a
friend (`LeftSidebar.jsx` lines 58-62): `userData: { ...doc.data(), uid: doc.id }`,
`lastMessage: { text: null, timestamp: null }`, `unreadCount: 0`. -/
def friendItem (docId : String) (data : ItemUser) : ChatItem :=
  { userData := { data with uid := some docId }, rId := none, messageId := none,
    unreadCount := some 0, lastMessageSeconds := none }

/-- The method `Array.prototype.filter` with a callback that also reads the
index, from index `i` on. -/
def filterWithIndex {α : Type} (p : α → Nat → Bool) : List α → Nat → List α
  | [], _ => []
  | a :: as, i =>
    if p a i then a :: filterWithIndex p as (i + 1) else filterWithIndex p as (i + 1)

/-- The array `allChats` of lines 100-103: an element of
`[...chatData, ...friendsData]` is kept when its index is the first index
whose `userData.uid` is strictly equal to its own. -/
def allChats (chatData friendsData : List ChatItem) : List ChatItem :=
  filterWithIndex
    (fun chat index =>
      findIndex (fun c => c.userData.uid == chat.userData.uid) (chatData ++ friendsData)
        == some index)
    (chatData ++ friendsData) 0

/-- The expression `x || y` for a number `x` that may be absent: `y` when `x`
is absent or 0. -/
def jsOrNat (x : Option Nat) (y : Nat) : Nat :=
  match x with
  | some v => if v != 0 then v else y
  | none => y

/-- The value `a.lastMessage?.timestamp?.seconds || a.userData.lastSeen || 0`
of lines 111-112. -/
def lastActivity (a : ChatItem) : Nat :=
  jsOrNat a.lastMessageSeconds (jsOrNat a.userData.lastSeen 0)

/-- The comparator of lines 105-114. -/
def compareChats (a b : ChatItem) : Int :=
  if jsOrNat a.unreadCount 0 > 0 && jsOrNat b.unreadCount 0 == 0 then -1
  else if jsOrNat a.unreadCount 0 == 0 && jsOrNat b.unreadCount 0 > 0 then 1
  else (lastActivity b : Int) - (lastActivity a : Int)

/-- Insert `a` before the first element it does not have to follow. -/
def insertByCompare {α : Type} (cmp : α → α → Int) (a : α) : List α → List α
  | [] => [a]
  | b :: bs => if cmp a b ≤ 0 then a :: b :: bs else b :: insertByCompare cmp a bs

/-- The method `Array.prototype.sort` with a comparator: a stable sort, so
for a comparator that orders the elements consistently the result is the one
of stable insertion. -/
def jsSort {α : Type} (cmp : α → α → Int) (l : List α) : List α :=
  l.foldr (insertByCompare cmp) []

/-- The array `sortedChats` of lines 105-114. -/
def sortedChats (chatData friendsData : List ChatItem) : List ChatItem :=
  jsSort compareChats (allChats chatData friendsData)

/-! ## Typing status (`ChatBox.jsx` lines 349-359 and 675-689,
`services/typing.js`) -/

/-- What surrounds the typing handlers of a mounted `ChatBox`: `messagesId`,
`userData.id`, and whether the store accepts the typing writes (a rejected
write is caught and logged by `updateTypingStatus`). -/
structure TypingEnv where
  messagesId : Option String
  userId : String
  storeAccepts : Bool

/-- The typing state: the `typing` map of the conversation document, the
handle held in `typingTimeoutRef.current`, the timeouts pending in the
runtime as (handle, deadline), and the handle the next `setTimeout` returns
(handles are positive). -/
structure TypingState where
  typing : List (String × Option Nat)
  typingTimeoutRef : Option Nat
  timers : List (Nat × Nat)
  nextHandle : Nat
deriving DecidableEq, Repr

/-- A mounted `ChatBox` before the first keystroke. -/
def TypingState.initial : TypingState :=
  { typing := [], typingTimeoutRef := none, timers := [], nextHandle := 1 }

/-- The function `updateTypingStatus` (`services/typing.js` lines 4-13) called
at time `now`: writes `typing.{userId}` as `Date.now()` or `null`. -/
def updateTypingStatus (env : TypingEnv) (now : Nat) (isTyping : Bool) (s : TypingState) :
    TypingState :=
  if env.storeAccepts then
    { s with typing := putDoc env.userId (if isTyping then some now else none) s.typing }
  else s

/-- The function `clearTimeout`: a pending timeout with this handle is
cancelled. -/
def clearTimeout (handle : Nat) (s : TypingState) : TypingState :=
  { s with timers := s.timers.filter (fun p => p.1 != handle) }

/-- What happens to the typing state: a change of the input at time `t`, the
clock reaching `now` (every timeout that is due fires), or the cleanup of the
effect of lines 350-359 at time `t`. -/
inductive TypingEvent where
  | keystroke (t : Nat)
  | advance (now : Nat)
  | unmount (t : Nat)
deriving DecidableEq, Repr

/-- The `onChange` handler of lines 675-689 at time `t`. -/
def onInputChange (env : TypingEnv) (t : Nat) (s : TypingState) : TypingState :=
  if truthy env.messagesId then
    let s1 := updateTypingStatus env t true s
    let s2 := match s1.typingTimeoutRef with
      | some h => clearTimeout h s1
      | none => s1
    { s2 with timers := s2.timers ++ [(s2.nextHandle, t + 3000)]
              typingTimeoutRef := some s2.nextHandle
              nextHandle := s2.nextHandle + 1 }
  else s

/-- The clock reaches `now`: the callback of every timeout whose deadline has
come runs (`updateTypingStatus(messagesId, userData.id, false)`) and the
timeout is no longer pending. -/
def fireDueTimers (env : TypingEnv) (now : Nat) (s : TypingState) : TypingState :=
  let due := s.timers.filter (fun p => decide (p.2 ≤ now))
  let s1 := { s with timers := s.timers.filter (fun p => !decide (p.2 ≤ now)) }
  due.foldl (fun acc _ => updateTypingStatus env now false acc) s1

/-- The cleanup of lines 351-358 at time `t`. -/
def typingCleanup (env : TypingEnv) (t : Nat) (s : TypingState) : TypingState :=
  let s1 := if truthy env.messagesId && truthy (some env.userId) then
      updateTypingStatus env t false s else s
  match s1.typingTimeoutRef with
  | some h => clearTimeout h s1
  | none => s1

/-- One event. -/
def stepTyping (env : TypingEnv) (s : TypingState) : TypingEvent → TypingState
  | .keystroke t => onInputChange env t s
  | .advance now => fireDueTimers env now s
  | .unmount t => typingCleanup env t s

/-- A sequence of events, from left to right. -/
def runTyping (env : TypingEnv) (s : TypingState) (es : List TypingEvent) : TypingState :=
  es.foldl (stepTyping env) s

/-! ## `handleSubmit` of the profile modal (`components/ProfileModal.jsx`
lines 85-160) -/

/-- The property `length` of a string: its number of UTF-16 code units. -/
def jsLength (s : String) : Nat :=
  (utf16 s).length

/-- The `formData` cell of the modal. -/
structure ProfileForm where
  name : String
  bio : String
  avatar : Option String
  password : String
  confirmPassword : String
deriving DecidableEq, Repr

/-- The object written to the user document (lines 129-133). -/
structure ProfileUpdate where
  name : String
  bio : String
  avatar : Option String
deriving DecidableEq, Repr

/-- The cells `handleSubmit` reads: `formData`, `avatarFile`, `loading`,
`isSubmitting`. -/
structure ProfileState where
  formData : ProfileForm
  avatarFile : Option ImageFile
  loading : Bool
  isSubmitting : Bool
deriving DecidableEq, Repr

/-- What surrounds a submit: `userData.id`, whether `auth.currentUser` is set,
the answer of the upload service, and whether the `updateDoc` and the
`updatePassword` are rejected. -/
structure ProfileEnv where
  userId : String
  hasCurrentUser : Bool
  service : ImageFile → UploadResult
  updateFails : Bool
  passwordFails : Bool

/-- What a submit leaves behind: the toasts, the files posted to the upload
service, the `updateDoc` calls issued on the user document, the passwords
handed to `updatePassword`, the value of the context `userData` update if one
was made, whether `onClose` was called, and the cells `loading` and
`isSubmitting`. -/
structure ProfileOutcome where
  errors : List String
  successes : List String
  uploads : List ImageFile
  writes : List (String × ProfileUpdate)
  passwordChanges : List String
  contextUpdate : Option ProfileUpdate
  closed : Bool
  loading : Bool
  isSubmitting : Bool
deriving DecidableEq, Repr

/-- A return of `handleSubmit` before anything was attempted, with the given
error toasts. -/
def profileRejected (s : ProfileState) (errors : List String) : ProfileOutcome :=
  { errors := errors, successes := [], uploads := [], writes := [], passwordChanges := [],
    contextUpdate := none, closed := false, loading := s.loading,
    isSubmitting := s.isSubmitting }

/-- Lines 128-159 of `handleSubmit`: the write of the profile, the password
change and the success path, after `uploads` were posted and the avatar URL
is `updatedAvatarUrl`. -/
def submitProfile (env : ProfileEnv) (s : ProfileState) (uploads : List ImageFile)
    (updatedAvatarUrl : Option String) : ProfileOutcome :=
  let updatedUserData : ProfileUpdate :=
    { name := s.formData.name, bio := s.formData.bio, avatar := updatedAvatarUrl }
  let writes := [(env.userId, updatedUserData)]
  if env.updateFails then
    { errors := ["Failed to update profile"], successes := [], uploads := uploads,
      writes := writes, passwordChanges := [], contextUpdate := none, closed := false,
      loading := false, isSubmitting := false }
  else
    let passwordChanges :=
      if truthy (some s.formData.password) && env.hasCurrentUser then
        [s.formData.password] else []
    if truthy (some s.formData.password) && env.hasCurrentUser && env.passwordFails then
      { errors := ["Failed to update profile"], successes := [], uploads := uploads,
        writes := writes, passwordChanges := passwordChanges, contextUpdate := none,
        closed := false, loading := false, isSubmitting := false }
    else
      { errors := [], successes := ["Profile updated successfully"], uploads := uploads,
        writes := writes, passwordChanges := passwordChanges,
        contextUpdate := some updatedUserData, closed := true, loading := false,
        isSubmitting := false }

/-- The function `handleSubmit`. -/
def handleSubmit (env : ProfileEnv) (s : ProfileState) : ProfileOutcome :=
  if s.loading || s.isSubmitting then profileRejected s []
  else if !truthy (some (jsTrim s.formData.name)) then
    profileRejected s ["Name is required"]
  else if jsLength s.formData.bio > 250 then
    profileRejected s ["Bio must be less than 250 characters"]
  else if truthy (some s.formData.password) && jsLength s.formData.password < 6 then
    profileRejected s ["Password must be at least 6 characters long"]
  else if truthy (some s.formData.password)
      && s.formData.password != s.formData.confirmPassword then
    profileRejected s ["Passwords do not match"]
  else
    match s.avatarFile with
    | some f =>
      match env.service f with
      | .error msg =>
        { errors := [if msg != "" then msg else "Failed to upload image"], successes := [],
          uploads := [f], writes := [], passwordChanges := [], contextUpdate := none,
          closed := false, loading := false, isSubmitting := false }
      | .url u => submitProfile env s [f] (some u)
    | none => submitProfile env s [] s.formData.avatar

/-- The form passes the checks of lines 91-110. -/
def ProfileFormValid (f : ProfileForm) : Prop :=
  jsTrim f.name ≠ "" ∧ jsLength f.bio ≤ 250 ∧
  (f.password = "" ∨ (6 ≤ jsLength f.password ∧ f.password = f.confirmPassword))

/-! ## Properties of states and runs -/

/-- The cursor names the oldest loaded message: if the list is non-empty, its
first element is the message built from the snapshot in `lastMessageRef`. -/
def CursorAtHead (s : ChatBoxState) : Prop :=
  s.messages ≠ [] → s.messages.head? = s.lastMessageRef.map toMessage

/-- A batch of snapshots ordered newest first by `createdAt`. -/
def NewestFirst (docs : List DocSnap) : Prop :=
  docs.Pairwise (fun a b => b.data.createdAt ≤ a.data.createdAt)

/-- Every snapshot of the batch is strictly older than the cursor held in `s`
(no condition when there is no cursor). -/
def OlderThanCursor (s : ChatBoxState) (docs : List DocSnap) : Prop :=
  ∀ d ∈ docs, ∀ c ∈ s.lastMessageRef, d.data.createdAt < c.data.createdAt

/-- A message list in ascending (non-decreasing) `createdAt` order. -/
def Ascending (ms : List Message) : Prop :=
  ms.Pairwise (fun a b => a.createdAt ≤ b.createdAt)

/-- The store keeps its ordering promises for the event `e` arriving in state
`s`: an emission is newest first; a fetched page is newest first and strictly
older than the current cursor. -/
def EventOrdered (s : ChatBoxState) : ChatEvent → Prop
  | .snapshot docs => NewestFirst docs
  | .loadSettle (.ok docs) => NewestFirst docs ∧ OlderThanCursor s docs
  | _ => True

/-- The store keeps its ordering promises along the whole run `es` from `s`. -/
def RunOrdered (messagesId : Option String) : ChatBoxState → List ChatEvent → Prop
  | _, [] => True
  | s, e :: es => EventOrdered s e ∧ RunOrdered messagesId (stepChat messagesId s e) es

/-- The `chatsData` array `cs` after a completed round of the loop of lines
98-116: the first entry of the conversation `cid`, if there is one, replaced
by `sentEntry` of it. -/
def sentArray (env : SendEnv) (cid input : String) (reading : Nat)
    (cs : List ChatListEntry) : List ChatListEntry :=
  match findIndex (fun c => c.messageId == cid) cs with
  | some i => modifyAt (sentEntry env input reading) i cs
  | none => cs

/-- Every pending timeout is the one whose handle `typingTimeoutRef` holds,
and there is at most one. -/
def SingleTimer (s : TypingState) : Prop :=
  s.timers = [] ∨ ∃ h d, s.timers = [(h, d)] ∧ s.typingTimeoutRef = some h

/-! ## Example data -/

/-- An example text message document sent by `sender` at time `t`. -/
def exampleDoc (docId sender : String) (t : Nat) : DocSnap :=
  { id := docId
    data := { sId := some sender, text := some "hi", image := none, system := false,
              createdAt := t, id := toString t } }

/-- An example state: one loaded message, a load in flight. -/
def exampleBusyState : ChatBoxState :=
  { messages := [toMessage (exampleDoc "d1" "alice" 10)]
    lastMessageRef := some (exampleDoc "d1" "alice" 10)
    hasMore := true, loading := true, isLoadingMore := true
    fetches := [{ conversation := "alice_bob", startAfter := none, limit := 50 }]
    toasts := [] }

/-- An example state: one loaded message, nothing in flight. -/
def exampleIdleState : ChatBoxState :=
  { messages := [toMessage (exampleDoc "d5" "alice" 50)]
    lastMessageRef := some (exampleDoc "d5" "alice" 50)
    hasMore := true, loading := false, isLoadingMore := false
    fetches := [], toasts := [] }

/-- An example summary document of the conversation of `a` and `b`. -/
def exampleConv (a b : String) : ConvDoc :=
  { participants := [a, b], lastMessage := none, lastMessageAt := none,
    unreadCount := some [(a, 0), (b, 0)], typing := [] }

/-- The props of alice's view showing her conversation with `other`. -/
def exampleProps (other : String) : ChatProps :=
  { messagesId := some ("alice_" ++ other), chatUserId := some other, userId := "alice" }

/-- Alice's view after opening her conversation with bob and then switching
to her conversation with carol. -/
def exampleSwitchedView : ChatView :=
  applyProps (exampleProps "carol") (some (exampleConv "alice" "carol"))
    (applyProps (exampleProps "bob") (some (exampleConv "alice" "bob")) ChatView.initial)

/-- An example store: the conversation of alice and bob, with a chat-list
entry for it in each participant's `chatsData`. -/
def exampleStore : Store :=
  { messages := [("alice_bob", { exampleConv "alice" "bob" with
                      unreadCount := some [("alice", 2), ("bob", 3)] })]
    messagesList := []
    chats := [("alice", [{ rId := "bob", messageId := "alice_bob", lastMessage := none,
                           updatedAt := none, messageSeen := some true }]),
              ("bob", [{ rId := "alice", messageId := "alice_bob", lastMessage := none,
                         updatedAt := none, messageSeen := some true }])] }

/-- Alice sending to bob, with every store call succeeding. -/
def exampleSendEnv : SendEnv :=
  { userId := "alice", recipientId := "bob", messagesId := some "alice_bob",
    now := fun i => 1000 + i, newDocId := "doc1", fails := fun _ => none }

/-- Alice sending to bob while the store rejects the `addDoc` of the message. -/
def exampleFailingEnv : SendEnv :=
  { exampleSendEnv with
    fails := fun c => if c = StoreCall.addMessage then some "unavailable" else none }

/-- A small PNG file. -/
def exampleImage : ImageFile :=
  { name := "cat.png", type := "image/png", size := 1024 }

/-- A PNG file of 10 MB. -/
def exampleBigImage : ImageFile :=
  { name := "big.png", type := "image/png", size := 10 * 1024 * 1024 }

/-- An upload service that accepts every file. -/
def exampleService (f : ImageFile) : UploadResult :=
  UploadResult.url ("https://cdn.example/" ++ f.name)

/-- The image cells of a `ChatBox` in which `exampleImage` has been chosen. -/
def exampleImageState : ImageState :=
  { selectedImage := some exampleImage, imagePreview := some "data:image/png;base64,AAAA",
    loading := false, reading := none, errors := [], successes := [], contacted := [] }

/-- Alice clicking on bob in the sidebar, with every store call succeeding. -/
def exampleClickEnv : ClickEnv :=
  { currentUserId := some "alice", selectedUserId := some "bob", serverNow := 900,
    now := fun i => 1000 + i, newDocId := "sys1", fails := fun _ => none }

/-- A store right after alice and bob signed up: their user documents without
a `chats` array, their `chatsData` arrays empty, no conversation yet. -/
def exampleFreshStore : Store :=
  { messages := [], messagesList := []
    chats := [("alice", []), ("bob", [])]
    users := [("alice", { chats := none, friends := ["bob"], notifications := [] }),
              ("bob", { chats := none, friends := ["alice"], notifications := [] })] }

/-- A friend request being sent while every store call succeeds. -/
def exampleFriendEnv : FriendEnv :=
  { serverNow := 900, now := 1000, newDocId := "req1", fails := fun _ => none }

/-- Alice as the `sender` argument of `sendFriendRequest`. -/
def exampleSender : Sender :=
  { uid := some "alice", name := some "Alice", avatar := none }

/-- The notification bob holds for a friend request from `sender`. -/
def exampleNotification (sender : String) : Notification :=
  { type := "friendRequest", «from» := sender, fromName := some sender, timestamp := 1000,
    senderAvatar := none }

/-- The pending friend request from `sender` to bob. -/
def exampleRequest (sender : String) : FriendRequest :=
  { senderId := sender, senderName := some sender, senderPhoto := none,
    recipientId := "bob", status := "pending", createdAt := 900 }

/-- A store in which alice and carol have each sent bob a friend request and
nobody has friends yet. -/
def exampleRequestsStore : Store :=
  { messages := [], messagesList := [], chats := []
    users := [("bob", { chats := none, friends := []
                        notifications := [exampleNotification "alice",
                                          exampleNotification "carol"] }),
              ("alice", { chats := none, friends := [], notifications := [] }),
              ("carol", { chats := none, friends := [], notifications := [] })]
    friendRequests := [("req1", exampleRequest "alice"), ("req2", exampleRequest "carol")] }

/-- The notification dropdown of bob, whose context `userData` was loaded
while his `friends` array was empty; every store call succeeds. -/
def exampleNotifEnv : NotifEnv :=
  { userId := "bob", userFriends := some [], processingIds := [], fails := fun _ => none }

/-- The persisted chat-list entry of the current user for the conversation
with `other`. -/
def examplePersistedEntry (other : String) : ChatListEntry :=
  { rId := other, messageId := "alice_" ++ other, lastMessage := some "hi",
    updatedAt := some 1000, messageSeen := some true }

/-- An item whose last message has a timestamp of 1 700 000 000 seconds
(November 2023) and whose user was never seen. -/
def exampleMessageItem : ChatItem :=
  { userData := { id := some "bob", uid := some "bob", name := some "Bob", lastSeen := none }
    rId := none, messageId := none, unreadCount := some 0
    lastMessageSeconds := some 1700000000 }

/-- An item with no message timestamp whose user was last seen at
1 600 000 000 000 milliseconds (September 2020). -/
def examplePresenceItem : ChatItem :=
  friendItem "carol" (signupUserData "carol" "Carol" 1600000000000)

/-- Alice typing in her conversation with bob, the store reachable. -/
def exampleTypingEnv : TypingEnv :=
  { messagesId := some "alice_bob", userId := "alice", storeAccepts := true }

/-- A valid profile form: a name, a short bio, no password change. -/
def exampleProfileForm : ProfileForm :=
  { name := "Alice", bio := "hello", avatar := none, password := "", confirmPassword := "" }

/-- The profile modal of alice with every call succeeding. -/
def exampleProfileEnv : ProfileEnv :=
  { userId := "alice", hasCurrentUser := true, service := exampleService,
    updateFails := false, passwordFails := false }

/-! ## Pagination: guard and merge -/

/-- C1: when a load is already in flight, or `hasMore` is false, or there is
no conversation id, a call of `loadMoreMessages` changes nothing at all: the
log of issued queries, the message list, the cursor and `hasMore` are what
they were (whatever the store would have answered), both for the call taken
as a whole and for its first segment. -/
theorem loadMoreMessages_blocked_noop (messagesId : Option String) (s : ChatBoxState)
    (result : Except String (List DocSnap))
    (h : s.isLoadingMore = true ∨ s.hasMore = false ∨ truthy messagesId = false) :
    loadMoreMessages messagesId s result = s ∧
    stepChat messagesId s ChatEvent.loadCall = s ∧
    (loadMoreMessages messagesId s result).fetches = s.fetches ∧
    (loadMoreMessages messagesId s result).messages = s.messages ∧
    (loadMoreMessages messagesId s result).lastMessageRef = s.lastMessageRef ∧
    (loadMoreMessages messagesId s result).hasMore = s.hasMore := by
  have hb : loadMoreBlocked messagesId s = true := by
    unfold loadMoreBlocked
    rcases h with h | h | h <;> simp [h]
  have h1 : loadMoreMessages messagesId s result = s := by
    simp [loadMoreMessages, hb]
  refine ⟨h1, ?_, ?_, ?_, ?_, ?_⟩
  · simp [stepChat, hb]
  all_goals rw [h1]

theorem loadMoreMessages_blocked_noop_witness :
    loadMoreMessages (some "alice_bob") exampleBusyState
        (Except.ok [exampleDoc "d0" "bob" 5]) = exampleBusyState ∧
    stepChat (some "alice_bob") exampleBusyState ChatEvent.loadCall = exampleBusyState :=
  let h := loadMoreMessages_blocked_noop (some "alice_bob") exampleBusyState
    (Except.ok [exampleDoc "d0" "bob" 5]) (Or.inl rfl)
  ⟨h.1, h.2.1⟩

/-- C2: when the guard lets `loadMoreMessages` run and the store answers with
the page `p` (newest first), the message list afterwards is the reversed page
followed by the previous list; the same holds for the second segment alone,
applied to whatever list `t.messages` is held when the answer arrives. -/
theorem loadMoreMessages_prepends_reversed_page (messagesId : Option String)
    (s t : ChatBoxState) (p : List DocSnap)
    (h : loadMoreBlocked messagesId s = false) :
    (loadMoreMessages messagesId s (Except.ok p)).messages
      = (p.map toMessage).reverse ++ s.messages ∧
    (loadMoreResolve t (Except.ok p)).messages
      = (p.map toMessage).reverse ++ t.messages := by
  have key : ∀ u : ChatBoxState, (loadMoreResolve u (Except.ok p)).messages
      = (p.map toMessage).reverse ++ u.messages := by
    intro u
    cases p with
    | nil => simp [loadMoreResolve, MESSAGES_PER_PAGE]
    | cons d ds =>
      simp only [loadMoreResolve, loadMoreUpdater, List.length_map, List.length_cons]
      split_ifs <;> simp at *
  refine ⟨?_, key t⟩
  simp only [loadMoreMessages, h]
  rw [if_neg (by simp), key]
  rfl

theorem loadMoreMessages_prepends_reversed_page_witness :
    (loadMoreMessages (some "alice_bob") exampleIdleState
        (Except.ok [exampleDoc "d4" "bob" 40, exampleDoc "d3" "alice" 30])).messages
      = [toMessage (exampleDoc "d3" "alice" 30), toMessage (exampleDoc "d4" "bob" 40),
         toMessage (exampleDoc "d5" "alice" 50)] :=
  (loadMoreMessages_prepends_reversed_page (some "alice_bob") exampleIdleState
    exampleIdleState [exampleDoc "d4" "bob" 40, exampleDoc "d3" "alice" 30] (by decide)).1

/-! ## The cursor invariant -/

theorem head_reverse_map_toMessage (docs : List DocSnap) :
    ((docs.map toMessage).reverse).head? = docs.getLast?.map toMessage := by
  rw [List.head?_reverse, List.getLast?_map]

theorem cursorAtHead_onMessageSnapshot (s : ChatBoxState) (docs : List DocSnap)
    (h : CursorAtHead s) : CursorAtHead (onMessageSnapshot s docs) := by
  unfold onMessageSnapshot
  simp only []
  split_ifs with hlen
  · intro _
    exact head_reverse_map_toMessage docs
  · exact h

theorem cursorAtHead_loadMoreResolve (s : ChatBoxState)
    (result : Except String (List DocSnap)) (h : CursorAtHead s) :
    CursorAtHead (loadMoreResolve s result) := by
  cases result with
  | error e => exact h
  | ok docs =>
    cases docs with
    | nil =>
      simp only [loadMoreResolve, List.map_nil, List.length_nil]
      split_ifs <;> first | exact h | (exfalso; omega)
    | cons d ds =>
      intro _
      have hh := head_reverse_map_toMessage (d :: ds)
      have hne : ((d :: ds).map toMessage).reverse ≠ [] := by simp
      simp only [loadMoreResolve, loadMoreUpdater, List.length_map, List.length_cons]
      split_ifs <;> first
        | (simp only [List.head?_append, ← hh, List.head?_eq_head hne]; rfl)
        | (exfalso; omega)

theorem cursorAtHead_stepChat (messagesId : Option String) (s : ChatBoxState)
    (e : ChatEvent) (h : CursorAtHead s) : CursorAtHead (stepChat messagesId s e) := by
  cases e with
  | snapshot docs => exact cursorAtHead_onMessageSnapshot s docs h
  | initialPage docs => exact h
  | loadCall =>
    simp only [stepChat]
    split_ifs
    · exact h
    · exact h
  | loadSettle result =>
    simp only [stepChat]
    split_ifs
    · exact cursorAtHead_loadMoreResolve s result h
    · exact h

theorem cursorAtHead_runChat (messagesId : Option String) (es : List ChatEvent) :
    ∀ s : ChatBoxState, CursorAtHead s → CursorAtHead (runChat messagesId s es) := by
  induction es with
  | nil => intro s h; exact h
  | cons e es ih =>
    intro s h
    exact ih (stepChat messagesId s e) (cursorAtHead_stepChat messagesId s e h)

/-- C3: in every state reached from the empty list with no cursor by live
emissions, initial page counts, calls of `loadMoreMessages` and settled
fetches in any order, a non-empty message list has as first (oldest) element
the message of the snapshot held as cursor, and the query the next
`loadMoreMessages` issues starts after exactly that snapshot. -/
theorem cursor_is_oldest_loaded_message (messagesId : Option String) (cid : String)
    (es : List ChatEvent)
    (h : (runChat messagesId ChatBoxState.initial es).messages ≠ []) :
    ∃ d : DocSnap,
      (runChat messagesId ChatBoxState.initial es).lastMessageRef = some d ∧
      (runChat messagesId ChatBoxState.initial es).messages.head? = some (toMessage d) ∧
      (loadMoreStart cid (runChat messagesId ChatBoxState.initial es)).fetches.getLast?
        = some { conversation := cid, startAfter := some d, limit := MESSAGES_PER_PAGE } := by
  have hinit : CursorAtHead ChatBoxState.initial := fun hne => absurd rfl hne
  have hinv := cursorAtHead_runChat messagesId es ChatBoxState.initial hinit h
  generalize runChat messagesId ChatBoxState.initial es = s at h hinv ⊢
  cases hc : s.lastMessageRef with
  | none =>
    rw [hc, List.head?_eq_head h] at hinv
    simp at hinv
  | some d =>
    refine ⟨d, rfl, ?_, ?_⟩
    · rw [hinv, hc]; rfl
    · simp [loadMoreStart, hc]

theorem cursor_is_oldest_loaded_message_witness :
    ∃ d : DocSnap,
      (runChat (some "alice_bob") ChatBoxState.initial
        [ChatEvent.snapshot [exampleDoc "d5" "alice" 50, exampleDoc "d4" "bob" 40],
         ChatEvent.loadCall,
         ChatEvent.loadSettle (Except.ok [exampleDoc "d3" "bob" 30])]).lastMessageRef
        = some d ∧
      (runChat (some "alice_bob") ChatBoxState.initial
        [ChatEvent.snapshot [exampleDoc "d5" "alice" 50, exampleDoc "d4" "bob" 40],
         ChatEvent.loadCall,
         ChatEvent.loadSettle (Except.ok [exampleDoc "d3" "bob" 30])]).messages.head?
        = some (toMessage d) :=
  let ⟨d, h1, h2, _⟩ := cursor_is_oldest_loaded_message (some "alice_bob") "alice_bob"
    [ChatEvent.snapshot [exampleDoc "d5" "alice" 50, exampleDoc "d4" "bob" 40],
     ChatEvent.loadCall,
     ChatEvent.loadSettle (Except.ok [exampleDoc "d3" "bob" 30])] (by decide)
  ⟨d, h1, h2⟩

/-! ## Live emissions -/

/-- C4 fails as stated: an emission with zero messages arriving while one
message is loaded leaves that message in the list, instead of replacing the
list by the (empty) reversed batch. -/
theorem empty_emission_does_not_replace :
    (onMessageSnapshot exampleIdleState []).messages
        = [toMessage (exampleDoc "d5" "alice" 50)] ∧
    (onMessageSnapshot exampleIdleState []).messages
        ≠ (([] : List DocSnap).map toMessage).reverse := by
  decide

/-- C4 amended: an emission carrying at least one message replaces the
message list by exactly the emitted batch in reversed order, whatever the list
held before; an emission carrying zero messages leaves the whole state as it
was. -/
theorem onMessageSnapshot_replaces_when_nonempty (s : ChatBoxState) (docs : List DocSnap)
    (h : docs ≠ []) :
    (onMessageSnapshot s docs).messages = (docs.map toMessage).reverse ∧
    onMessageSnapshot s [] = s := by
  constructor
  · have hlen : 0 < docs.length := List.length_pos.mpr h
    simp [onMessageSnapshot, hlen]
  · rfl

theorem onMessageSnapshot_replaces_when_nonempty_witness :
    (onMessageSnapshot exampleIdleState [exampleDoc "d7" "bob" 70, exampleDoc "d6" "bob" 60]).messages
      = [toMessage (exampleDoc "d6" "bob" 60), toMessage (exampleDoc "d7" "bob" 70)] :=
  (onMessageSnapshot_replaces_when_nonempty exampleIdleState
    [exampleDoc "d7" "bob" 70, exampleDoc "d6" "bob" 60] (by decide)).1

/-! ## Ascending order of the displayed list -/

theorem ascending_reverse_of_newestFirst (docs : List DocSnap) (h : NewestFirst docs) :
    Ascending ((docs.map toMessage).reverse) := by
  unfold Ascending
  rw [List.pairwise_reverse, List.pairwise_map]
  exact h

theorem ascending_onMessageSnapshot (s : ChatBoxState) (docs : List DocSnap)
    (hs : Ascending s.messages) (hd : NewestFirst docs) :
    Ascending (onMessageSnapshot s docs).messages := by
  unfold onMessageSnapshot
  simp only []
  split_ifs
  · exact ascending_reverse_of_newestFirst docs hd
  · exact hs

theorem ascending_prepend (s : ChatBoxState) (docs : List DocSnap)
    (hs : Ascending s.messages) (hc : CursorAtHead s)
    (hd : NewestFirst docs) (ho : OlderThanCursor s docs) :
    Ascending ((docs.map toMessage).reverse ++ s.messages) := by
  unfold Ascending
  rw [List.pairwise_append]
  refine ⟨ascending_reverse_of_newestFirst docs hd, hs, ?_⟩
  intro a ha b hb
  rw [List.mem_reverse, List.mem_map] at ha
  obtain ⟨d, hdm, rfl⟩ := ha
  cases hm : s.messages with
  | nil => rw [hm] at hb; cases hb
  | cons m ms =>
    have hne : s.messages ≠ [] := by rw [hm]; simp
    have hhead := hc hne
    rw [hm] at hhead hb
    cases hcur : s.lastMessageRef with
    | none => rw [hcur] at hhead; simp at hhead
    | some c =>
      rw [hcur] at hhead
      simp only [List.head?_cons, Option.map_some', Option.some.injEq] at hhead
      have hlt : d.data.createdAt < c.data.createdAt := ho d hdm c hcur
      have hmc : m.createdAt = c.data.createdAt := by rw [hhead]; rfl
      have hmb : m.createdAt ≤ b.createdAt := by
        rcases List.mem_cons.mp hb with rfl | hb'
        · exact le_refl _
        · have hp : List.Pairwise (fun a b : Message => a.createdAt ≤ b.createdAt) (m :: ms) := by
            have := hs
            unfold Ascending at this
            rw [hm] at this
            exact this
          exact List.rel_of_pairwise_cons hp hb'
      show d.data.createdAt ≤ b.createdAt
      omega

theorem ascending_loadMoreResolve (s : ChatBoxState) (docs : List DocSnap)
    (hs : Ascending s.messages) (hc : CursorAtHead s)
    (hd : NewestFirst docs) (ho : OlderThanCursor s docs) :
    Ascending (loadMoreResolve s (Except.ok docs)).messages := by
  have hmsg : (loadMoreResolve s (Except.ok docs)).messages
      = (docs.map toMessage).reverse ++ s.messages := by
    cases docs with
    | nil => simp [loadMoreResolve, MESSAGES_PER_PAGE]
    | cons d ds =>
      simp only [loadMoreResolve, loadMoreUpdater, List.length_map, List.length_cons]
      split_ifs <;> simp at *
  rw [hmsg]
  exact ascending_prepend s docs hs hc hd ho

theorem ascending_stepChat (messagesId : Option String) (s : ChatBoxState) (e : ChatEvent)
    (hs : Ascending s.messages) (hc : CursorAtHead s) (he : EventOrdered s e) :
    Ascending (stepChat messagesId s e).messages := by
  cases e with
  | snapshot docs => exact ascending_onMessageSnapshot s docs hs he
  | initialPage docs => exact hs
  | loadCall =>
    simp only [stepChat]
    split_ifs
    · exact hs
    · exact hs
  | loadSettle result =>
    simp only [stepChat]
    split_ifs
    · cases result with
      | error e => exact hs
      | ok docs => exact ascending_loadMoreResolve s docs hs hc he.1 he.2
    · exact hs

theorem ascending_runChat (messagesId : Option String) (es : List ChatEvent) :
    ∀ s : ChatBoxState, Ascending s.messages → CursorAtHead s →
      RunOrdered messagesId s es → Ascending (runChat messagesId s es).messages := by
  induction es with
  | nil => intro s hs _ _; exact hs
  | cons e es ih =>
    intro s hs hc hr
    exact ih (stepChat messagesId s e) (ascending_stepChat messagesId s e hs hc hr.1)
      (cursorAtHead_stepChat messagesId s e hc) hr.2

/-- C5: if along a run from the freshly mounted state every live emission and
every fetched page is ordered newest first by `createdAt`, and every fetched
page holds only messages strictly older than the cursor current when it is
merged (for a call with nothing interleaved, the cursor its query started
after), then the message list after the run is sorted non-decreasingly by
`createdAt`. -/
theorem messages_ascending_after_run (messagesId : Option String) (es : List ChatEvent)
    (h : RunOrdered messagesId ChatBoxState.initial es) :
    Ascending (runChat messagesId ChatBoxState.initial es).messages :=
  ascending_runChat messagesId es ChatBoxState.initial List.Pairwise.nil
    (fun hne => absurd rfl hne) h

theorem messages_ascending_after_run_witness :
    Ascending (runChat (some "alice_bob") ChatBoxState.initial
      [ChatEvent.snapshot [exampleDoc "d5" "alice" 50, exampleDoc "d4" "bob" 40],
       ChatEvent.loadCall,
       ChatEvent.loadSettle (Except.ok [exampleDoc "d3" "bob" 30, exampleDoc "d2" "bob" 20])]).messages :=
  messages_ascending_after_run (some "alice_bob")
    [ChatEvent.snapshot [exampleDoc "d5" "alice" 50, exampleDoc "d4" "bob" 40],
     ChatEvent.loadCall,
     ChatEvent.loadSettle (Except.ok [exampleDoc "d3" "bob" 30, exampleDoc "d2" "bob" 20])]
    (by simp [RunOrdered, EventOrdered, NewestFirst, OlderThanCursor, stepChat,
          onMessageSnapshot, loadMoreBlocked, loadMoreStart, truthy, ChatBoxState.initial,
          exampleDoc])

/-! ## The `hasMore` flag -/

/-- C6: with N = `MESSAGES_PER_PAGE` = 50, the answer to the initial query
sets `hasMore` to true exactly when it holds 50 documents; a call of
`loadMoreMessages` that is let through and fetches fewer than 50 leaves
`hasMore` false, and one that fetches exactly 50 leaves it true. -/
theorem hasMore_tracks_full_page (messagesId : Option String) (s : ChatBoxState)
    (initialDocs p : List DocSnap) (h : loadMoreBlocked messagesId s = false) :
    MESSAGES_PER_PAGE = 50 ∧
    ((setInitialHasMore s initialDocs).hasMore = true ↔ initialDocs.length = 50) ∧
    (p.length < 50 → (loadMoreMessages messagesId s (Except.ok p)).hasMore = false) ∧
    (p.length = 50 → (loadMoreMessages messagesId s (Except.ok p)).hasMore = true) := by
  have hm : s.hasMore = true := by
    unfold loadMoreBlocked at h
    cases hh : s.hasMore
    · simp [hh] at h
    · rfl
  refine ⟨rfl, ?_, ?_, ?_⟩
  · simp [setInitialHasMore, MESSAGES_PER_PAGE]
  · intro hp
    simp only [loadMoreMessages, h]
    rw [if_neg (by simp)]
    simp only [loadMoreResolve, loadMoreUpdater, List.length_map, MESSAGES_PER_PAGE]
    split_ifs <;> rfl
  · intro hp
    simp only [loadMoreMessages, h]
    rw [if_neg (by simp)]
    simp only [loadMoreResolve, loadMoreUpdater, List.length_map, MESSAGES_PER_PAGE]
    split_ifs <;> first | (exfalso; omega) | (simp [loadMoreStart, hm])

theorem hasMore_tracks_full_page_witness :
    (loadMoreMessages (some "alice_bob") exampleIdleState
        (Except.ok [exampleDoc "d4" "bob" 40])).hasMore = false :=
  (hasMore_tracks_full_page (some "alice_bob") exampleIdleState [] [exampleDoc "d4" "bob" 40]
    (by decide)).2.2.1 (by decide)

/-! ## The message-listener effect -/

/-- C7, evaluated on the code: after alice's view opened her conversation
with bob and then switched to the one with carol, React holds no cleanup for
the effect and both listeners are open; a snapshot of the conversation with
bob, which is no longer shown, replaces the message list; and unmounting
closes neither listener. -/
theorem stale_listener_survives_switch :
    exampleSwitchedView.cleanup = none ∧
    exampleSwitchedView.listeners = ["alice_bob", "alice_carol"] ∧
    exampleSwitchedView.box.messages = [] ∧
    (deliverSnapshot "alice_bob" [exampleDoc "d1" "bob" 10] exampleSwitchedView).box.messages
      = [toMessage (exampleDoc "d1" "bob" 10)] ∧
    (unmountView exampleSwitchedView).listeners = ["alice_bob", "alice_carol"] := by
  decide

/-- C8: when the summary document exists and the current user's id is not in
its `participants`, the effect opens no listener and requests no initial page,
and the message list, the cursor and `hasMore` stay as they were; the only
change is the access-denied toast. -/
theorem messageListener_aborts_for_non_participant (p : ChatProps) (chatData : ConvDoc)
    (v : ChatView) (h : p.userId ∉ chatData.participants) :
    (messageListenerEffect p (some chatData) v).1.listeners = v.listeners ∧
    (messageListenerEffect p (some chatData) v).1.initialFetches = v.initialFetches ∧
    (messageListenerEffect p (some chatData) v).1.box.messages = v.box.messages ∧
    (messageListenerEffect p (some chatData) v).1.box.lastMessageRef = v.box.lastMessageRef ∧
    (messageListenerEffect p (some chatData) v).1.box.hasMore = v.box.hasMore ∧
    (applyProps p (some chatData) v).listeners = (runCleanup v.cleanup v).listeners := by
  unfold applyProps messageListenerEffect
  split_ifs <;> simp [messageListenerThen, h]

theorem messageListener_aborts_for_non_participant_witness :
    (messageListenerEffect (exampleProps "bob") (some (exampleConv "bob" "carol"))
      ChatView.initial).1.listeners = [] :=
  (messageListener_aborts_for_non_participant (exampleProps "bob")
    (exampleConv "bob" "carol") ChatView.initial (by decide)).1

/-! ## `sendMessage` -/

theorem jsTrim_of_all_whiteSpace (input : String)
    (h : ∀ c ∈ input.data, isJsWhiteSpace c = true) : jsTrim input = "" := by
  have h1 : input.data.dropWhile isJsWhiteSpace = [] := List.dropWhile_eq_nil_iff.mpr h
  unfold jsTrim
  rw [h1]
  rfl

/-- C9: for every input made of white space only (the empty input included)
`sendMessage` leaves the store exactly as it was (no message appended, no
write to the summary or to a chat list), leaves the input cell as it was and
shows no error, whichever store calls would have failed. -/
theorem sendMessage_blank_is_noop (env : SendEnv) (input : String) (store : Store)
    (h : ∀ c ∈ input.data, isJsWhiteSpace c = true) :
    sendMessage env input store = { store := store, input := input, toasts := [] } := by
  have ht : jsTrim input = "" := jsTrim_of_all_whiteSpace input h
  simp [sendMessage, ht, truthy]

theorem sendMessage_blank_is_noop_witness :
    sendMessage exampleSendEnv " \t\n" exampleStore
      = { store := exampleStore, input := " \t\n", toasts := [] } :=
  sendMessage_blank_is_noop exampleSendEnv " \t\n" exampleStore (by decide)

theorem lookup_cons_ite {α : Type} (k' a : String) (b : α) (es : List (String × α)) :
    List.lookup k' ((a, b) :: es) = if k' = a then some b else List.lookup k' es := by
  rw [List.lookup_cons]
  by_cases h : k' = a
  · subst h; simp
  · have hb : (k' == a) = false := by simpa using h
    simp [hb, h]

theorem lookup_map_replace {α : Type} (k k' : String) (v : α) (c : List (String × α)) :
    (c.map (fun p => if p.1 == k then (k, v) else p)).lookup k'
      = if k' = k then (c.lookup k).map (fun _ => v) else c.lookup k' := by
  induction c with
  | nil => simp
  | cons p c ih =>
    obtain ⟨a, b⟩ := p
    by_cases hak : a = k <;> by_cases hk : k' = k <;> by_cases hka : k' = a <;>
      simp_all [lookup_cons_ite]

theorem lookup_putDoc_self {α : Type} (k : String) (v : α) (c : List (String × α)) :
    (putDoc k v c).lookup k = some v := by
  unfold putDoc
  split_ifs with h
  · rw [lookup_map_replace]
    obtain ⟨w, hw⟩ := Option.isSome_iff_exists.mp h
    simp [hw]
  · have hn : c.lookup k = none := by
      cases hl : c.lookup k with
      | none => rfl
      | some w => simp [hl] at h
    simp [List.lookup_append, hn]

theorem lookup_putDoc_other {α : Type} (k k' : String) (v : α) (c : List (String × α))
    (hne : k' ≠ k) : (putDoc k v c).lookup k' = c.lookup k' := by
  unfold putDoc
  split_ifs with h
  · rw [lookup_map_replace]
    simp [hne]
  · have hb : (k' == k) = false := by simpa using hne
    cases hl : c.lookup k' <;> simp [List.lookup_append, hl, List.lookup_cons, hb]

theorem updateUserChat_messages (env : SendEnv) (cid input : String) (reading : Nat)
    (uid : String) (store : Store) :
    (updateUserChat env cid input reading uid store).1.messages = store.messages := by
  unfold updateUserChat
  repeat' split
  all_goals rfl

/-- C10: let the summary of the conversation hold the `unreadCount` map `m`
(the empty map if the field is missing).  After a `sendMessage` with
non-blank text that ends without an error, the summary holds a map `m1` with
`m1[recipient] = m[recipient] + 1` (a missing key counting as 0) and
`m1[k] = m[k]` for every other key `k`; in particular the count of a sender
other than the recipient is unchanged. -/
theorem sendMessage_increments_recipient_unread (env : SendEnv) (input : String)
    (store : Store) (cid : String) (chatData : ConvDoc)
    (hin : jsTrim input ≠ "") (hid : env.messagesId = some cid) (hcid : cid ≠ "")
    (hdoc : store.messages.lookup cid = some chatData)
    (hok : (sendMessage env input store).toasts = []) :
    ∃ (chatData1 : ConvDoc) (m1 : JsMap),
      (sendMessage env input store).store.messages.lookup cid = some chatData1 ∧
      chatData1.unreadCount = some m1 ∧
      m1.lookup env.recipientId
        = some (((chatData.unreadCount.getD []).lookup env.recipientId).getD 0 + 1) ∧
      (∀ k : String, k ≠ env.recipientId →
        m1.lookup k = (chatData.unreadCount.getD []).lookup k) ∧
      (env.userId ≠ env.recipientId →
        m1.lookup env.userId = (chatData.unreadCount.getD []).lookup env.userId) := by
  have hg : (truthy (some (jsTrim input)) && truthy env.messagesId) = true := by
    simp [truthy, hin, hid, hcid]
  revert hok
  unfold sendMessage
  rw [if_pos hg]
  dsimp only
  rw [hid, Option.getD_some, hdoc]
  dsimp only
  split
  · intro hok; simp at hok
  · split
    · intro hok; simp at hok
    · split
      · intro hok; simp at hok
      · split
        · intro hok; simp at hok
        · rename_i st3 hu1
          split
          · intro hok; simp at hok
          · rename_i st4 hu2
            intro _
            have hm3 := congrArg (fun r : Store × Option String => r.1.messages) hu1
            have hm4 := congrArg (fun r : Store × Option String => r.1.messages) hu2
            simp only [updateUserChat_messages] at hm3 hm4
            refine ⟨{ chatData with
                lastMessage := some (jsTrim input)
                lastMessageAt := some (env.now 2)
                unreadCount := some (JsMap.set (chatData.unreadCount.getD []) env.recipientId
                  (((chatData.unreadCount.getD []).lookup env.recipientId).getD 0 + 1)) },
              JsMap.set (chatData.unreadCount.getD []) env.recipientId
                  (((chatData.unreadCount.getD []).lookup env.recipientId).getD 0 + 1),
              ?_, ?_, ?_, ?_, ?_⟩
            · rw [← hm4, ← hm3]
              exact lookup_putDoc_self cid _ store.messages
            · rfl
            · exact lookup_putDoc_self env.recipientId _ _
            · intro k hk
              exact lookup_putDoc_other env.recipientId k _ _ hk
            · intro hk
              exact lookup_putDoc_other env.recipientId env.userId _ _ hk

theorem sendMessage_increments_recipient_unread_witness :
    ∃ (chatData1 : ConvDoc) (m1 : JsMap),
      (sendMessage exampleSendEnv "hello" exampleStore).store.messages.lookup "alice_bob"
        = some chatData1 ∧
      chatData1.unreadCount = some m1 ∧
      m1.lookup "bob" = some 4 ∧ m1.lookup "alice" = some 2 :=
  let ⟨c1, m1, h1, h2, h3, _, h5⟩ := sendMessage_increments_recipient_unread exampleSendEnv
    "hello" exampleStore "alice_bob"
    { exampleConv "alice" "bob" with unreadCount := some [("alice", 2), ("bob", 3)] }
    (by decide) rfl (by decide) (by decide) (by decide)
  ⟨c1, m1, h1, h2, h3, h5 (by decide)⟩

/-! ## Chat-list entries after `sendMessage` -/

theorem length_modifyAt {α : Type} (f : α → α) :
    ∀ (i : Nat) (l : List α), (modifyAt f i l).length = l.length := by
  intro i l
  induction l generalizing i with
  | nil => cases i <;> rfl
  | cons a as ih =>
    cases i with
    | zero => rfl
    | succ i => simp [modifyAt, ih]

theorem getElem_modifyAt_ne {α : Type} (f : α → α) :
    ∀ (i j : Nat) (l : List α), j ≠ i → (modifyAt f i l)[j]? = l[j]? := by
  intro i j l
  induction l generalizing i j with
  | nil => intro _; cases i <;> rfl
  | cons a as ih =>
    intro hne
    cases i with
    | zero =>
      cases j with
      | zero => exact absurd rfl hne
      | succ j => simp [modifyAt]
    | succ i =>
      cases j with
      | zero => simp [modifyAt]
      | succ j =>
        simp only [modifyAt, List.getElem?_cons_succ]
        exact ih i j (fun h => hne (by rw [h]))

theorem getElem_modifyAt_self {α : Type} (f : α → α) :
    ∀ (i : Nat) (l : List α), (modifyAt f i l)[i]? = (l[i]?).map f := by
  intro i l
  induction l generalizing i with
  | nil => cases i <;> rfl
  | cons a as ih =>
    cases i with
    | zero => simp [modifyAt]
    | succ i =>
      simp only [modifyAt, List.getElem?_cons_succ]
      exact ih i

theorem modifyAt_modifyAt {α : Type} (f g : α → α) :
    ∀ (i : Nat) (l : List α),
      modifyAt g i (modifyAt f i l) = modifyAt (fun a => g (f a)) i l := by
  intro i l
  induction l generalizing i with
  | nil => cases i <;> rfl
  | cons a as ih =>
    cases i with
    | zero => rfl
    | succ i => simp [modifyAt, ih]

theorem findIndex_some_getElem {α : Type} (p : α → Bool) :
    ∀ (l : List α) (i : Nat), findIndex p l = some i →
      ∃ e, l[i]? = some e ∧ p e = true := by
  intro l
  induction l with
  | nil => intro i h; simp [findIndex] at h
  | cons a as ih =>
    intro i h
    by_cases hp : p a = true
    · simp only [findIndex, hp, if_true, Option.some.injEq] at h
      subst h
      exact ⟨a, by simp, hp⟩
    · simp only [findIndex, hp, Bool.false_eq_true, if_false, Option.map_eq_some'] at h
      obtain ⟨k, hk, rfl⟩ := h
      obtain ⟨e, he, hpe⟩ := ih k hk
      exact ⟨e, by simpa using he, hpe⟩

theorem findIndex_modifyAt {α : Type} (p : α → Bool) (f : α → α)
    (hp : ∀ a, p (f a) = p a) :
    ∀ (i : Nat) (l : List α), findIndex p (modifyAt f i l) = findIndex p l := by
  intro i l
  induction l generalizing i with
  | nil => cases i <;> rfl
  | cons a as ih =>
    cases i with
    | zero => simp [modifyAt, findIndex, hp]
    | succ i => simp [modifyAt, findIndex, ih]

theorem sentEntry_eq (env : SendEnv) (input : String) (r : Nat) (c : ChatListEntry) :
    sentEntry env input r c
      = { c with lastMessage := some input
                 updatedAt := some (env.now r)
                 messageSeen := if c.rId = env.userId then some false else c.messageSeen } := by
  unfold sentEntry
  by_cases h : c.rId = env.userId <;> simp [h]

theorem sentEntry_sentEntry (env : SendEnv) (input : String) (r1 r2 : Nat)
    (c : ChatListEntry) :
    sentEntry env input r2 (sentEntry env input r1 c) = sentEntry env input r2 c := by
  simp only [sentEntry_eq]
  by_cases h : c.rId = env.userId <;> simp [h]

theorem sentArray_sentArray (env : SendEnv) (cid input : String) (r1 r2 : Nat)
    (cs : List ChatListEntry) :
    sentArray env cid input r2 (sentArray env cid input r1 cs)
      = sentArray env cid input r2 cs := by
  unfold sentArray
  cases hf : findIndex (fun c => c.messageId == cid) cs with
  | none => simp [hf]
  | some i =>
    have hkeep : ∀ a : ChatListEntry,
        (fun c : ChatListEntry => c.messageId == cid) (sentEntry env input r1 a)
          = (fun c : ChatListEntry => c.messageId == cid) a := by
      intro a
      simp [sentEntry_eq]
    have hf2 := findIndex_modifyAt (fun c : ChatListEntry => c.messageId == cid)
      (sentEntry env input r1) hkeep i cs
    rw [hf2]
    simp only [hf, modifyAt_modifyAt, sentEntry_sentEntry]

theorem updateUserChat_lookup (env : SendEnv) (cid input : String) (r : Nat) (u : String)
    (st : Store) (uid : String) (cs : List ChatListEntry)
    (h : st.chats.lookup uid = some cs) :
    (updateUserChat env cid input r u st).1.chats.lookup uid
      = some (if uid = u ∧ (updateUserChat env cid input r u st).2 = none
              then sentArray env cid input r cs else cs) := by
  by_cases huid : uid = u
  · subst huid
    unfold updateUserChat sentArray
    cases h1 : env.fails (StoreCall.getUserChats uid) with
    | some e => simp [h]
    | none =>
      simp only [h]
      cases hf : findIndex (fun c => c.messageId == cid) cs with
      | none => simp [h]
      | some i =>
        cases h2 : env.fails (StoreCall.updateUserChats uid) with
        | some e => simp [h]
        | none =>
          simp only [and_self, if_true]
          exact lookup_putDoc_self uid _ st.chats
  · rw [if_neg (fun hc => huid hc.1)]
    unfold updateUserChat
    repeat' split
    all_goals first
      | exact h
      | (simp only []; rw [lookup_putDoc_other u uid _ _ huid]; exact h)

theorem updateUserChat_lookup_of_eq (env : SendEnv) (cid input : String) (r : Nat)
    (u : String) (st : Store) (res : Store × Option String) (uid : String)
    (cs : List ChatListEntry)
    (hres : updateUserChat env cid input r u st = res)
    (h : st.chats.lookup uid = some cs) :
    res.1.chats.lookup uid
      = some (if uid = u ∧ res.2 = none then sentArray env cid input r cs else cs) := by
  subst hres
  exact updateUserChat_lookup env cid input r u st uid cs h

theorem sendMessage_chats_lookup (env : SendEnv) (input : String) (store : Store)
    (uid : String) (cs : List ChatListEntry) (h : store.chats.lookup uid = some cs) :
    ∃ cs', (sendMessage env input store).store.chats.lookup uid = some cs' ∧
      (cs' = cs ∨ ∃ r, cs' = sentArray env (env.messagesId.getD "") input r cs) ∧
      (uid ≠ env.recipientId → uid ≠ env.userId → cs' = cs) ∧
      ((sendMessage env input store).toasts = [] →
        (truthy (some (jsTrim input)) && truthy env.messagesId) = true →
        (uid = env.recipientId ∨ uid = env.userId) →
        ∃ r, cs' = sentArray env (env.messagesId.getD "") input r cs) := by
  generalize hout : sendMessage env input store = out
  unfold sendMessage at hout
  split at hout
  case isFalse hg =>
    subst hout
    exact ⟨cs, h, Or.inl rfl, fun _ _ => rfl, fun _ hg' _ => absurd hg' hg⟩
  case isTrue hg =>
    dsimp only at hout
    split at hout
    · subst hout
      exact ⟨cs, h, Or.inl rfl, fun _ _ => rfl, fun ht => by simp at ht⟩
    · split at hout
      · subst hout
        exact ⟨cs, h, Or.inl rfl, fun _ _ => rfl, fun ht => by simp at ht⟩
      · split at hout
        · subst hout
          exact ⟨cs, h, Or.inl rfl, fun _ _ => rfl, fun ht => by simp at ht⟩
        · split at hout
          · subst hout
            exact ⟨cs, h, Or.inl rfl, fun _ _ => rfl, fun ht => by simp at ht⟩
          · split at hout
            · rename_i st3 e hu1
              subst hout
              have h3 := updateUserChat_lookup_of_eq env _ input 3 env.recipientId _ _ uid cs
                hu1 h
              simp only [reduceCtorEq, and_false, if_false] at h3
              exact ⟨cs, h3, Or.inl rfl, fun _ _ => rfl, fun ht => by simp at ht⟩
            · rename_i st3 hu1
              have h3 := updateUserChat_lookup_of_eq env _ input 3 env.recipientId _ _ uid cs
                hu1 h
              simp only [and_true] at h3
              split at hout
              · rename_i st4 e hu2
                subst hout
                have h4 := updateUserChat_lookup_of_eq env _ input 4 env.userId _ _ uid _
                  hu2 h3
                simp only [reduceCtorEq, and_false, if_false] at h4
                refine ⟨_, h4, ?_, ?_, fun ht => by simp at ht⟩
                · by_cases hr : uid = env.recipientId
                  · exact Or.inr ⟨3, by rw [if_pos hr]⟩
                  · exact Or.inl (by rw [if_neg hr])
                · intro hr _
                  rw [if_neg hr]
              · rename_i st4 hu2
                subst hout
                have h4 := updateUserChat_lookup_of_eq env _ input 4 env.userId _ _ uid _
                  hu2 h3
                simp only [and_true] at h4
                refine ⟨_, h4, ?_, ?_, ?_⟩
                · by_cases hu : uid = env.userId
                  · refine Or.inr ⟨4, ?_⟩
                    by_cases hr : uid = env.recipientId
                    · rw [if_pos hu, if_pos hr, sentArray_sentArray]
                    · rw [if_pos hu, if_neg hr]
                  · by_cases hr : uid = env.recipientId
                    · exact Or.inr ⟨3, by rw [if_neg hu, if_pos hr]⟩
                    · exact Or.inl (by rw [if_neg hu, if_neg hr])
                · intro hr hu
                  rw [if_neg hu, if_neg hr]
                · intro _ _ hpart
                  by_cases hu : uid = env.userId
                  · refine ⟨4, ?_⟩
                    by_cases hr : uid = env.recipientId
                    · rw [if_pos hu, if_pos hr, sentArray_sentArray]
                    · rw [if_pos hu, if_neg hr]
                  · have hr : uid = env.recipientId := hpart.resolve_right hu
                    exact ⟨3, by rw [if_neg hu, if_pos hr]⟩

theorem length_sentArray (env : SendEnv) (cid input : String) (r : Nat)
    (cs : List ChatListEntry) : (sentArray env cid input r cs).length = cs.length := by
  unfold sentArray
  split
  · exact length_modifyAt _ _ _
  · rfl

theorem sentArray_of_no_match (env : SendEnv) (cid input : String) (r : Nat)
    (cs : List ChatListEntry)
    (h : findIndex (fun c => c.messageId == cid) cs = none) :
    sentArray env cid input r cs = cs := by
  unfold sentArray
  rw [h]

theorem sentArray_getElem_found (env : SendEnv) (cid input : String) (r : Nat)
    (cs : List ChatListEntry) (j : Nat) (e : ChatListEntry)
    (hf : findIndex (fun c => c.messageId == cid) cs = some j) (he : cs[j]? = some e) :
    e.messageId = cid ∧
    (sentArray env cid input r cs)[j]? = some { e with
      lastMessage := some input
      updatedAt := some (env.now r)
      messageSeen := if e.rId = env.userId then some false else e.messageSeen } := by
  obtain ⟨e', he', hp⟩ := findIndex_some_getElem _ cs j hf
  rw [he] at he'
  cases he'
  refine ⟨by simpa using hp, ?_⟩
  unfold sentArray
  rw [hf]
  simp only []
  rw [getElem_modifyAt_self, he, Option.map_some', sentEntry_eq]

theorem sentArray_getElem (env : SendEnv) (cid input : String) (r : Nat)
    (cs : List ChatListEntry) (j : Nat) :
    (sentArray env cid input r cs)[j]? = cs[j]? ∨
    findIndex (fun c => c.messageId == cid) cs = some j := by
  cases hf : findIndex (fun c => c.messageId == cid) cs with
  | none => left; rw [sentArray_of_no_match env cid input r cs hf]
  | some i =>
    by_cases hji : j = i
    · right; rw [hji]
    · left
      unfold sentArray
      rw [hf]
      exact getElem_modifyAt_ne _ i j cs hji

/-- C11: let `cs` be the `chatsData` array of any user before `sendMessage`.
Afterwards that user's array `cs'` has the same length; every entry is the
entry that was at the same position, except possibly the first entry whose
`messageId` is the conversation id, which then has `lastMessage` set to the
input, `updatedAt` set to a clock reading, `messageSeen` set to false exactly
when its `rId` is the sender (otherwise as it was) and `rId` and `messageId`
as before; an array with no matching entry is left as it was, and so is the
array of a user who is neither participant; and when the send ends without an
error the matching entry of each participant is updated in this way. -/
theorem sendMessage_chatList_frame (env : SendEnv) (input : String) (store : Store)
    (uid : String) (cs : List ChatListEntry) (h : store.chats.lookup uid = some cs) :
    ∃ cs' : List ChatListEntry,
      (sendMessage env input store).store.chats.lookup uid = some cs' ∧
      cs'.length = cs.length ∧
      (∀ (j : Nat) (e : ChatListEntry), cs[j]? = some e →
        cs'[j]? = some e ∨
        (findIndex (fun c => c.messageId == env.messagesId.getD "") cs = some j ∧
          e.messageId = env.messagesId.getD "" ∧
          ∃ r : Nat, cs'[j]? = some { e with
            lastMessage := some input
            updatedAt := some (env.now r)
            messageSeen := if e.rId = env.userId then some false else e.messageSeen })) ∧
      (findIndex (fun c => c.messageId == env.messagesId.getD "") cs = none → cs' = cs) ∧
      (uid ≠ env.recipientId → uid ≠ env.userId → cs' = cs) ∧
      ((sendMessage env input store).toasts = [] →
        (truthy (some (jsTrim input)) && truthy env.messagesId) = true →
        (uid = env.recipientId ∨ uid = env.userId) →
        ∀ (j : Nat) (e : ChatListEntry),
          findIndex (fun c => c.messageId == env.messagesId.getD "") cs = some j →
          cs[j]? = some e →
          ∃ r : Nat, cs'[j]? = some { e with
            lastMessage := some input
            updatedAt := some (env.now r)
            messageSeen := if e.rId = env.userId then some false else e.messageSeen }) := by
  obtain ⟨cs', hl, hcase, hnon, hsucc⟩ := sendMessage_chats_lookup env input store uid cs h
  refine ⟨cs', hl, ?_, ?_, ?_, hnon, ?_⟩
  · rcases hcase with rfl | ⟨r, rfl⟩
    · rfl
    · exact length_sentArray _ _ _ _ _
  · intro j e he
    rcases hcase with rfl | ⟨r, rfl⟩
    · exact Or.inl he
    · rcases sentArray_getElem env (env.messagesId.getD "") input r cs j with hsame | hf
      · exact Or.inl (hsame.trans he)
      · have hfound := sentArray_getElem_found env _ input r cs j e hf he
        exact Or.inr ⟨hf, hfound.1, r, hfound.2⟩
  · intro hnone
    rcases hcase with rfl | ⟨r, rfl⟩
    · rfl
    · exact sentArray_of_no_match _ _ _ _ _ hnone
  · intro hok hg hpart j e hf he
    obtain ⟨r, rfl⟩ := hsucc hok hg hpart
    exact ⟨r, (sentArray_getElem_found env _ input r cs j e hf he).2⟩

theorem sendMessage_chatList_frame_witness :
    ∃ cs' : List ChatListEntry,
      (sendMessage exampleSendEnv "hello" exampleStore).store.chats.lookup "bob" = some cs' ∧
      cs'[0]? = some { rId := "alice", messageId := "alice_bob", lastMessage := some "hello",
                       updatedAt := some 1003, messageSeen := some false } := by
  obtain ⟨cs', hl, _, _, _, _, hs⟩ := sendMessage_chatList_frame exampleSendEnv "hello"
    exampleStore "bob"
    [{ rId := "alice", messageId := "alice_bob", lastMessage := none, updatedAt := none,
       messageSeen := some true }] (by decide)
  refine ⟨cs', hl, ?_⟩
  have hl2 : (sendMessage exampleSendEnv "hello" exampleStore).store.chats.lookup "bob"
      = some [{ rId := "alice", messageId := "alice_bob", lastMessage := some "hello",
                updatedAt := some 1003, messageSeen := some false }] := by decide
  rw [hl2] at hl
  cases hl
  rfl

/-! ## `sendImage`, preview text and the input cell -/

/-- C12, evaluated on the code: alice sends an image to bob and every call
succeeds (the success toast is shown), yet the summary still holds the
`unreadCount` map it held before, with bob at 3, and bob's chat-list entry,
whose `rId` is the sender alice, still has `messageSeen = true`; the same
store after `sendMessage` has bob at 4 and `messageSeen = false`. -/
theorem sendImage_skips_unread_and_messageSeen :
    (sendImage exampleSendEnv exampleService exampleImageState exampleStore).1.successes
      = ["Image sent successfully"] ∧
    (sendImage exampleSendEnv exampleService exampleImageState exampleStore).1.errors = [] ∧
    ((sendImage exampleSendEnv exampleService exampleImageState
        exampleStore).2.messages.lookup "alice_bob").map (fun d => d.unreadCount)
      = some (some [("alice", 2), ("bob", 3)]) ∧
    (sendImage exampleSendEnv exampleService exampleImageState exampleStore).2.chats.lookup "bob"
      = some [{ rId := "alice", messageId := "alice_bob", lastMessage := some "Image",
                updatedAt := some 1003, messageSeen := some true }] ∧
    ((sendMessage exampleSendEnv "hello" exampleStore).store.messages.lookup
        "alice_bob").map (fun d => d.unreadCount)
      = some (some [("alice", 2), ("bob", 4)]) ∧
    (sendMessage exampleSendEnv "hello" exampleStore).store.chats.lookup "bob"
      = some [{ rId := "alice", messageId := "alice_bob", lastMessage := some "hello",
                updatedAt := some 1003, messageSeen := some false }] := by
  decide

/-- C13, evaluated on the code: alice sends the text " hi " to bob and every
call succeeds; the summary document gets the trimmed preview "hi" while the
matching chat-list entries of bob and of alice get the untrimmed " hi ". -/
theorem sendMessage_previews_differ_on_padded_text :
    (sendMessage exampleSendEnv " hi " exampleStore).toasts = [] ∧
    ((sendMessage exampleSendEnv " hi " exampleStore).store.messages.lookup
        "alice_bob").map (fun d => d.lastMessage) = some (some "hi") ∧
    ((sendMessage exampleSendEnv " hi " exampleStore).store.chats.lookup
        "bob").map (fun cs => cs.map (fun c => c.lastMessage)) = some [some " hi "] ∧
    ((sendMessage exampleSendEnv " hi " exampleStore).store.chats.lookup
        "alice").map (fun cs => cs.map (fun c => c.lastMessage)) = some [some " hi "] := by
  decide

/-- C14, evaluated on the code: alice types "hello" and the first store call
of `sendMessage` is rejected; the error toast is shown and the store is
untouched, but the input cell no longer holds the text she typed: it is empty.
On the same store a `sendImage` whose first store call is rejected keeps the
selected image and its preview. -/
theorem failed_send_clears_input :
    (sendMessage exampleFailingEnv "hello" exampleStore).toasts = ["unavailable"] ∧
    (sendMessage exampleFailingEnv "hello" exampleStore).store = exampleStore ∧
    (sendMessage exampleFailingEnv "hello" exampleStore).input = "" ∧
    (sendMessage exampleFailingEnv "hello" exampleStore).input ≠ "hello" ∧
    (sendImage exampleFailingEnv exampleService exampleImageState exampleStore).1.errors
      = ["Failed to send image. Please try again."] ∧
    (sendImage exampleFailingEnv exampleService exampleImageState exampleStore).1.selectedImage
      = some exampleImage ∧
    (sendImage exampleFailingEnv exampleService exampleImageState exampleStore).1.imagePreview
      = exampleImageState.imagePreview := by
  decide

/-- Every send that passes the guard of line 65 leaves the input cell empty,
whichever store calls were rejected: line 66 empties it before the first
`await` and the `catch` block does not restore it. -/
theorem sendMessage_input_after_guard (env : SendEnv) (input : String) (store : Store)
    (h : (truthy (some (jsTrim input)) && truthy env.messagesId) = true) :
    (sendMessage env input store).input = "" := by
  unfold sendMessage
  rw [if_pos h]
  dsimp only
  repeat' split
  all_goals rfl

/-! ## Image selection and upload -/

/-- C15: `handleImageSelect` makes the chosen file the selected image when
its type starts with "image/" and its size is at most 5 * 1024 * 1024 bytes;
for every other file the selected image, the preview and the pending read are
left as they were; in no case is anything posted to the upload service; so,
for a file that was not already selected, it is the selected image afterwards
if and only if it passes both checks.  With no image selected `sendImage`
does nothing. -/
theorem handleImageSelect_accepts_iff_valid (f : ImageFile) (s : ImageState)
    (env : SendEnv) (service : ImageFile → UploadResult) (store : Store) :
    (jsStartsWith f.type "image/" = true ∧ f.size ≤ 5 * 1024 * 1024 →
      (handleImageSelect (some f) s).selectedImage = some f ∧
      (handleImageSelect (some f) s).errors = s.errors) ∧
    (¬ (jsStartsWith f.type "image/" = true ∧ f.size ≤ 5 * 1024 * 1024) →
      (handleImageSelect (some f) s).selectedImage = s.selectedImage ∧
      (handleImageSelect (some f) s).imagePreview = s.imagePreview ∧
      (handleImageSelect (some f) s).reading = s.reading) ∧
    (handleImageSelect (some f) s).contacted = s.contacted ∧
    handleImageSelect none s = s ∧
    (s.selectedImage ≠ some f →
      ((handleImageSelect (some f) s).selectedImage = some f ↔
        (jsStartsWith f.type "image/" = true ∧ f.size ≤ 5 * 1024 * 1024))) ∧
    (s.selectedImage = none → sendImage env service s store = (s, store)) := by
  have hcases : (jsStartsWith f.type "image/" = true ∧ f.size ≤ 5 * 1024 * 1024) ∨
      jsStartsWith f.type "image/" = false ∨
      (jsStartsWith f.type "image/" = true ∧ 5 * 1024 * 1024 < f.size) := by
    cases hty : jsStartsWith f.type "image/"
    · exact Or.inr (Or.inl rfl)
    · by_cases hsz : f.size ≤ 5 * 1024 * 1024
      · exact Or.inl ⟨rfl, hsz⟩
      · exact Or.inr (Or.inr ⟨rfl, by omega⟩)
  refine ⟨?_, ?_, ?_, rfl, ?_, ?_⟩
  · rintro ⟨hty, hsz⟩
    have hsz' : ¬ f.size > 5 * 1024 * 1024 := by omega
    simp [handleImageSelect, hty, hsz']
  · intro hbad
    rcases hcases with hv | hty | ⟨hty, hsz⟩
    · exact absurd hv hbad
    · simp [handleImageSelect, hty]
    · have hsz' : f.size > 5 * 1024 * 1024 := hsz
      simp [handleImageSelect, hty, hsz']
  · rcases hcases with ⟨hty, hsz⟩ | hty | ⟨hty, hsz⟩
    · have hsz' : ¬ f.size > 5 * 1024 * 1024 := by omega
      simp [handleImageSelect, hty, hsz']
    · simp [handleImageSelect, hty]
    · have hsz' : f.size > 5 * 1024 * 1024 := hsz
      simp [handleImageSelect, hty, hsz']
  · intro hne
    rcases hcases with ⟨hty, hsz⟩ | hty | ⟨hty, hsz⟩
    · have hsz' : ¬ f.size > 5 * 1024 * 1024 := by omega
      simp [handleImageSelect, hty, hsz', hsz]
    · simp [handleImageSelect, hty, hne]
    · have hsz' : f.size > 5 * 1024 * 1024 := hsz
      have hsz'' : ¬ f.size ≤ 5 * 1024 * 1024 := by omega
      simp [handleImageSelect, hty, hsz', hsz'', hne]
  · intro hnone
    simp [sendImage, hnone]

theorem handleImageSelect_accepts_iff_valid_witness :
    (handleImageSelect (some exampleImage)
        { exampleImageState with selectedImage := none }).selectedImage = some exampleImage :=
  ((handleImageSelect_accepts_iff_valid exampleImage
    { exampleImageState with selectedImage := none } exampleSendEnv exampleService
    exampleStore).1 ⟨by decide, by decide⟩).1

/-- C16 fails as stated: `upload` given a PNG file of 10 MB posts it to the
upload service and returns the URL the service answers. -/
theorem upload_posts_oversized_image :
    exampleBigImage.size > 5 * 1024 * 1024 ∧
    (upload exampleService (some exampleBigImage)).contacted = [exampleBigImage] ∧
    (upload exampleService (some exampleBigImage)).result
      = UploadResult.url "https://cdn.example/big.png" := by
  decide

/-- C16 amended: `upload` fails with an error, without contacting the upload
service, when no file is given and for every file whose type does not start
with "image/"; a file whose type starts with "image/" is posted to the
service whatever its size, and `upload` returns a URL exactly when the
service answers with one. -/
theorem upload_checks_type_only (service : ImageFile → UploadResult) (f : ImageFile) :
    upload service none = { result := UploadResult.error "No file provided", contacted := [] } ∧
    (jsStartsWith f.type "image/" = false →
      upload service (some f)
        = { result := UploadResult.error "File must be an image", contacted := [] }) ∧
    (jsStartsWith f.type "image/" = true →
      (upload service (some f)).contacted = [f] ∧
      ∀ u : String, (upload service (some f)).result = UploadResult.url u ↔
        service f = UploadResult.url u) := by
  refine ⟨rfl, ?_, ?_⟩
  · intro hty
    simp [upload, hty]
  · intro hty
    cases hs : service f with
    | url u => simp [upload, uploadToCloudinary, hty, hs]
    | error m => simp [upload, uploadToCloudinary, hty, hs]

theorem upload_checks_type_only_witness :
    (upload exampleService (some exampleImage)).contacted = [exampleImage] :=
  ((upload_checks_type_only exampleService exampleImage).2.2 (by decide)).1

/-! ## The conversation id -/

theorem char_eq_of_toNat_eq (c d : Char) (h : c.toNat = d.toNat) : c = d := by
  apply Char.ext
  exact UInt32.ext (by simpa [Char.toNat] using h)

theorem utf16Units_append_inj (c d : Char) (xs ys : List Nat)
    (h : utf16Units c ++ xs = utf16Units d ++ ys) : c = d ∧ xs = ys := by
  have hc : c.toNat < 0xD800 ∨ (0xDFFF < c.toNat ∧ c.toNat < 0x110000) := c.valid
  have hd : d.toNat < 0xD800 ∨ (0xDFFF < d.toNat ∧ d.toNat < 0x110000) := d.valid
  unfold utf16Units at h
  split_ifs at h with h1 h2 h2
  · simp only [List.singleton_append, List.cons.injEq] at h
    exact ⟨char_eq_of_toNat_eq c d h.1, h.2⟩
  · simp only [List.singleton_append, List.cons_append, List.nil_append,
      List.cons.injEq] at h
    omega
  · simp only [List.singleton_append, List.cons_append, List.nil_append,
      List.cons.injEq] at h
    omega
  · simp only [List.cons_append, List.nil_append, List.cons.injEq] at h
    obtain ⟨e1, e2, e3⟩ := h
    exact ⟨char_eq_of_toNat_eq c d (by omega), e3⟩

theorem utf16Units_ne_nil (c : Char) : utf16Units c ≠ [] := by
  unfold utf16Units
  split_ifs <;> simp

theorem flatMap_utf16Units_inj :
    ∀ l1 l2 : List Char, l1.flatMap utf16Units = l2.flatMap utf16Units → l1 = l2 := by
  intro l1
  induction l1 with
  | nil =>
    intro l2 h
    cases l2 with
    | nil => rfl
    | cons d ds =>
      simp only [List.flatMap_nil, List.flatMap_cons] at h
      have := utf16Units_ne_nil d
      cases hd : utf16Units d with
      | nil => exact absurd hd this
      | cons x xs => rw [hd] at h; simp at h
  | cons c cs ih =>
    intro l2 h
    cases l2 with
    | nil =>
      simp only [List.flatMap_nil, List.flatMap_cons] at h
      have := utf16Units_ne_nil c
      cases hc : utf16Units c with
      | nil => exact absurd hc this
      | cons x xs => rw [hc] at h; simp at h
    | cons d ds =>
      simp only [List.flatMap_cons] at h
      obtain ⟨hcd, hrest⟩ := utf16Units_append_inj c d _ _ h
      rw [hcd, ih ds hrest]

theorem utf16_inj (a b : String) (h : utf16 a = utf16 b) : a = b :=
  String.ext (flatMap_utf16Units_inj a.data b.data h)

theorem codeUnitsLt_asymm :
    ∀ xs ys : List Nat, codeUnitsLt xs ys = true → codeUnitsLt ys xs = false := by
  intro xs
  induction xs with
  | nil =>
    intro ys _
    cases ys <;> rfl
  | cons x xs ih =>
    intro ys h
    cases ys with
    | nil => simp [codeUnitsLt] at h
    | cons y ys =>
      simp only [codeUnitsLt, Bool.or_eq_true, decide_eq_true_eq, Bool.and_eq_true,
        beq_iff_eq] at h
      rcases h with h | ⟨hxy, h⟩
      · have h1 : ¬ y < x := by omega
        have h2 : ¬ y = x := by omega
        simp [codeUnitsLt, h1, h2]
      · have h1 : ¬ y < x := by omega
        simp [codeUnitsLt, h1, ih ys h]

theorem codeUnitsLt_total :
    ∀ xs ys : List Nat, codeUnitsLt xs ys = false → codeUnitsLt ys xs = false → xs = ys := by
  intro xs
  induction xs with
  | nil =>
    intro ys h _
    cases ys with
    | nil => rfl
    | cons y ys => simp [codeUnitsLt] at h
  | cons x xs ih =>
    intro ys h1 h2
    cases ys with
    | nil => simp [codeUnitsLt] at h2
    | cons y ys =>
      simp only [codeUnitsLt, Bool.or_eq_false_iff, decide_eq_false_iff_not,
        Bool.and_eq_false_imp, beq_iff_eq] at h1 h2
      have hxy : x = y := by omega
      rw [hxy, ih ys (h1.2 hxy) (h2.2 hxy.symm)]

theorem handleChatClick_messagesId (env : ClickEnv) (store : Store)
    (h : (!truthy env.currentUserId || !truthy env.selectedUserId) = false) :
    (handleChatClick env store).messagesId
      = some (sortJoin (env.currentUserId.getD "") (env.selectedUserId.getD "")) := by
  unfold handleChatClick
  rw [if_neg (by simp [h])]
  dsimp only
  repeat' split
  all_goals rfl

/-- C19: the conversation id `[a, b].sort().join('_')` does not depend on the
order of the two ids; it is the two ids joined by "_" with the one that is
not greater (by code units) first; and the friends listener of the sidebar,
`handleChatClick` and `onChatSelect` of the chat page all compute this same
id for the same pair. -/
theorem conversation_id_order_independent (a b : String) (env : ClickEnv) (store : Store) :
    sortJoin a b = sortJoin b a ∧
    ((sortJoin a b = a ++ "_" ++ b ∧ jsStringLt b a = false) ∨
     (sortJoin a b = b ++ "_" ++ a ∧ jsStringLt a b = false)) ∧
    friendChatId a b = sortJoin a b ∧
    onChatSelectChatId a b = sortJoin a b ∧
    (env.currentUserId = some a → env.selectedUserId = some b → a ≠ "" → b ≠ "" →
      (handleChatClick env store).messagesId = some (sortJoin a b)) := by
  refine ⟨?_, ?_, rfl, rfl, ?_⟩
  · unfold sortJoin sortPair
    cases hba : jsStringLt b a
    · cases hab : jsStringLt a b
      · have : a = b := utf16_inj a b (codeUnitsLt_total _ _ hab hba)
        subst this
        rfl
      · rfl
    · have hab : jsStringLt a b = false := codeUnitsLt_asymm _ _ hba
      simp [hab]
  · unfold sortJoin sortPair
    cases hba : jsStringLt b a
    · exact Or.inl ⟨rfl, rfl⟩
    · exact Or.inr ⟨rfl, codeUnitsLt_asymm _ _ hba⟩
  · intro hcur hsel ha hb
    have hg : (!truthy env.currentUserId || !truthy env.selectedUserId) = false := by
      simp [hcur, hsel, truthy, ha, hb]
    rw [handleChatClick_messagesId env store hg, hcur, hsel]
    rfl

theorem conversation_id_order_independent_witness :
    (handleChatClick exampleClickEnv exampleFreshStore).messagesId
      = some (sortJoin "alice" "bob") :=
  (conversation_id_order_independent "alice" "bob" exampleClickEnv exampleFreshStore).2.2.2.2
    rfl rfl (by decide) (by decide)

/-! ## `handleChatClick` -/

theorem recordChat_messages (env : ClickEnv) (cur sel : String) (store : Store) :
    (recordChat env cur sel store).1.messages = store.messages ∧
    (recordChat env cur sel store).1.chats = store.chats := by
  unfold recordChat
  repeat' split
  all_goals exact ⟨rfl, rfl⟩

theorem openSummary_frame (env : ClickEnv) (cur sel chatId : String) (store : Store) :
    (openSummary env cur sel chatId store).1.chats = store.chats ∧
    (openSummary env cur sel chatId store).1.users = store.users := by
  unfold openSummary
  repeat' split
  all_goals exact ⟨rfl, rfl⟩

theorem openSummary_messages_existing (env : ClickEnv) (cur sel chatId : String)
    (store : Store) (chatData : ConvDoc)
    (hget : env.fails ClickCall.getSummary = none)
    (hupd : env.fails ClickCall.updateSummary = none)
    (h : store.messages.lookup chatId = some chatData) :
    (openSummary env cur sel chatId store).1.messages
      = putDoc chatId { chatData with
          unreadCount := some (JsMap.set (chatData.unreadCount.getD []) cur 0) }
        store.messages := by
  unfold openSummary
  simp only [hget, h, hupd]

theorem openSummary_messages_new (env : ClickEnv) (cur sel chatId : String)
    (store : Store)
    (hget : env.fails ClickCall.getSummary = none)
    (hset : env.fails ClickCall.setSummary = none)
    (h : store.messages.lookup chatId = none) :
    (openSummary env cur sel chatId store).1.messages
      = putDoc chatId
          { participants := [cur, sel]
            createdAt := some env.serverNow
            lastMessage := none
            lastMessageAt := some env.serverNow
            unreadCount := some (JsMap.set (JsMap.set [] cur 0) sel 0)
            typing := [] }
        store.messages := by
  unfold openSummary
  simp only [hget, h, hset]
  split <;> rfl

theorem handleChatClick_store_messages (env : ClickEnv) (store : Store)
    (h : (!truthy env.currentUserId || !truthy env.selectedUserId) = false) :
    (handleChatClick env store).store.messages
      = (openSummary env (env.currentUserId.getD "") (env.selectedUserId.getD "")
          (sortJoin (env.currentUserId.getD "") (env.selectedUserId.getD "")) store).1.messages := by
  unfold handleChatClick
  rw [if_neg (by simp [h])]
  dsimp only
  split
  · rename_i st1 h1
    rw [h1]
  · rename_i st1 h1
    rw [h1]
    split
    · rename_i st2 h2
      have := (recordChat_messages env (env.currentUserId.getD "")
        (env.selectedUserId.getD "") st1).1
      rw [h2] at this
      exact this
    · rename_i st2 h2
      have := (recordChat_messages env (env.currentUserId.getD "")
        (env.selectedUserId.getD "") st1).1
      rw [h2] at this
      exact this

/-- C17: when the reads and writes of the summary succeed, `handleChatClick`
by `cur` on `sel` leaves, for an existing conversation whose `unreadCount` map
is `m` (the empty map if the field is missing), the same summary with a map
`m1` where `m1[cur] = 0` and `m1[k] = m[k]` for every other key; and for a
conversation that does not exist yet it creates the summary with
`participants = [cur, sel]` and a map holding 0 for both and no other key. -/
theorem handleChatClick_resets_opener_unread (env : ClickEnv) (store : Store)
    (cur sel : String)
    (hcur : env.currentUserId = some cur) (hsel : env.selectedUserId = some sel)
    (hc : cur ≠ "") (hs : sel ≠ "")
    (hget : env.fails ClickCall.getSummary = none)
    (hset : env.fails ClickCall.setSummary = none)
    (hupd : env.fails ClickCall.updateSummary = none) :
    (∀ chatData : ConvDoc, store.messages.lookup (sortJoin cur sel) = some chatData →
      ∃ m1 : JsMap,
        (handleChatClick env store).store.messages.lookup (sortJoin cur sel)
          = some { chatData with unreadCount := some m1 } ∧
        m1.lookup cur = some 0 ∧
        ∀ k : String, k ≠ cur → m1.lookup k = (chatData.unreadCount.getD []).lookup k) ∧
    (store.messages.lookup (sortJoin cur sel) = none →
      ∃ (d : ConvDoc) (m1 : JsMap),
        (handleChatClick env store).store.messages.lookup (sortJoin cur sel) = some d ∧
        d.participants = [cur, sel] ∧
        d.unreadCount = some m1 ∧
        m1.lookup cur = some 0 ∧ m1.lookup sel = some 0 ∧
        ∀ k : String, k ≠ cur → k ≠ sel → m1.lookup k = none) := by
  have hg : (!truthy env.currentUserId || !truthy env.selectedUserId) = false := by
    simp [hcur, hsel, truthy, hc, hs]
  have hm := handleChatClick_store_messages env store hg
  rw [hcur, hsel] at hm
  simp only [Option.getD_some] at hm
  constructor
  · intro chatData hdoc
    rw [hm, openSummary_messages_existing env cur sel _ store chatData hget hupd hdoc]
    refine ⟨JsMap.set (chatData.unreadCount.getD []) cur 0, ?_, ?_, ?_⟩
    · exact lookup_putDoc_self _ _ _
    · exact lookup_putDoc_self cur 0 _
    · intro k hk
      exact lookup_putDoc_other cur k 0 _ hk
  · intro hdoc
    rw [hm, openSummary_messages_new env cur sel _ store hget hset hdoc]
    refine ⟨_, JsMap.set (JsMap.set [] cur 0) sel 0, lookup_putDoc_self _ _ _, rfl, rfl,
      ?_, ?_, ?_⟩
    · by_cases hcs : cur = sel
      · rw [hcs]
        exact lookup_putDoc_self sel 0 _
      · have h1 : (putDoc sel 0 (JsMap.set [] cur 0)).lookup cur
            = (JsMap.set [] cur 0).lookup cur := lookup_putDoc_other sel cur 0 _ hcs
        exact h1.trans (lookup_putDoc_self cur 0 [])
    · exact lookup_putDoc_self sel 0 _
    · intro k hk1 hk2
      have h1 : (putDoc sel 0 (JsMap.set [] cur 0)).lookup k
          = (JsMap.set [] cur 0).lookup k := lookup_putDoc_other sel k 0 _ hk2
      have h2 : (putDoc cur 0 ([] : JsMap)).lookup k = ([] : JsMap).lookup k :=
        lookup_putDoc_other cur k 0 _ hk1
      exact h1.trans (h2.trans rfl)

theorem handleChatClick_resets_opener_unread_witness :
    ∃ m1 : JsMap,
      (handleChatClick exampleClickEnv exampleStore).store.messages.lookup
          (sortJoin "alice" "bob")
        = some { exampleConv "alice" "bob" with unreadCount := some m1 } ∧
      m1.lookup "alice" = some 0 ∧ m1.lookup "bob" = some 3 :=
  let ⟨m1, h1, h2, h3⟩ := (handleChatClick_resets_opener_unread exampleClickEnv exampleStore
    "alice" "bob" rfl rfl (by decide) (by decide) rfl rfl rfl).1
    { exampleConv "alice" "bob" with unreadCount := some [("alice", 2), ("bob", 3)] }
    (by decide)
  ⟨m1, h1, h2, (h3 "bob" (by decide)).trans (by decide)⟩

theorem handleChatClick_store_chats (env : ClickEnv) (store : Store) :
    (handleChatClick env store).store.chats = store.chats := by
  unfold handleChatClick
  split
  · rfl
  · dsimp only
    have ho := (openSummary_frame env (env.currentUserId.getD "")
      (env.selectedUserId.getD "")
      (sortJoin (env.currentUserId.getD "") (env.selectedUserId.getD "")) store).1
    split
    · rename_i st1 h1
      rw [h1] at ho
      exact ho
    · rename_i st1 h1
      rw [h1] at ho
      have hr := (recordChat_messages env (env.currentUserId.getD "")
        (env.selectedUserId.getD "") st1).2
      split
      · rename_i st2 h2
        rw [h2] at hr
        exact hr.trans ho
      · rename_i st2 h2
        rw [h2] at hr
        exact hr.trans ho

theorem handleChatClick_store_users (env : ClickEnv) (store : Store) :
    (handleChatClick env store).store.users = store.users ∨
    ∃ st1 : Store, st1.users = store.users ∧
      (handleChatClick env store).store.users
        = (recordChat env (env.currentUserId.getD "") (env.selectedUserId.getD "") st1).1.users ∧
      ((handleChatClick env store).toasts = [] →
        (recordChat env (env.currentUserId.getD "") (env.selectedUserId.getD "") st1).2
          = false) := by
  unfold handleChatClick
  split
  · exact Or.inl rfl
  · dsimp only
    have ho := (openSummary_frame env (env.currentUserId.getD "")
      (env.selectedUserId.getD "")
      (sortJoin (env.currentUserId.getD "") (env.selectedUserId.getD "")) store).2
    split
    · rename_i st1 h1
      rw [h1] at ho
      exact Or.inl ho
    · rename_i st1 h1
      rw [h1] at ho
      refine Or.inr ⟨st1, ho, ?_⟩
      split
      · rename_i st2 h2
        rw [h2]
        exact ⟨rfl, fun ht => by simp at ht⟩
      · rename_i st2 h2
        rw [h2]
        exact ⟨rfl, fun _ => rfl⟩

theorem handleChatClick_users_of_ok (env : ClickEnv) (store : Store)
    (h : (!truthy env.currentUserId || !truthy env.selectedUserId) = false)
    (hok : (handleChatClick env store).toasts = []) :
    ∃ st1 : Store, st1.users = store.users ∧
      (handleChatClick env store).store.users
        = (recordChat env (env.currentUserId.getD "") (env.selectedUserId.getD "") st1).1.users ∧
      (recordChat env (env.currentUserId.getD "") (env.selectedUserId.getD "") st1).2
        = false := by
  revert hok
  unfold handleChatClick
  rw [if_neg (by simp [h])]
  dsimp only
  have ho := (openSummary_frame env (env.currentUserId.getD "")
    (env.selectedUserId.getD "")
    (sortJoin (env.currentUserId.getD "") (env.selectedUserId.getD "")) store).2
  split
  · intro hok; simp at hok
  · rename_i st1 h1
    rw [h1] at ho
    split
    · intro hok; simp at hok
    · rename_i st2 h2
      intro _
      exact ⟨st1, ho, by rw [h2], by rw [h2]⟩

theorem recordChat_users_recorded (env : ClickEnv) (cur sel : String) (st : Store)
    (u : UserDoc) (hu : st.users.lookup cur = some u)
    (hok : (recordChat env cur sel st).2 = false) :
    ∃ (u1 : UserDoc) (cs1 : List String),
      (recordChat env cur sel st).1.users.lookup cur = some u1 ∧
      u1.chats = some cs1 ∧ sel ∈ cs1 ∧
      ((u.chats.getD []).count sel ≤ 1 → cs1.count sel = 1) := by
  revert hok
  unfold recordChat
  cases hg : env.fails ClickCall.getUser with
  | some e => intro hok; simp at hok
  | none =>
    simp only [hu]
    cases hch : u.chats with
    | none =>
      simp only []
      cases hw : env.fails ClickCall.updateUser with
      | some e => intro hok; simp at hok
      | none =>
        intro _
        exact ⟨_, [sel], lookup_putDoc_self cur _ _, rfl, by simp, fun _ => by simp⟩
    | some chats =>
      simp only []
      by_cases hmem : sel ∈ chats
      · have hcont : chats.contains sel = true := by simpa using hmem
        simp only [hcont, Bool.not_true, Bool.false_eq_true, if_false]
        intro _
        refine ⟨u, chats, hu, hch, hmem, ?_⟩
        intro hle
        have hpos : 0 < chats.count sel := List.count_pos_iff.mpr hmem
        simp only [Option.getD_some] at hle
        omega
      · have hcont : chats.contains sel = false := by simpa using hmem
        simp only [hcont, Bool.not_false, if_true]
        cases hw : env.fails ClickCall.updateUser with
        | some e => intro hok; simp at hok
        | none =>
          intro _
          refine ⟨_, arrayUnion chats sel, lookup_putDoc_self cur _ _, rfl, ?_, ?_⟩
          · simp [arrayUnion, hmem]
          · intro _
            simp [arrayUnion, hmem, List.count_eq_zero_of_not_mem hmem]

theorem recordChat_users_unchanged (env : ClickEnv) (cur sel : String) (st : Store)
    (u : UserDoc) (cs : List String) (hu : st.users.lookup cur = some u)
    (hcs : u.chats = some cs) (hmem : sel ∈ cs) :
    (recordChat env cur sel st).1.users = st.users := by
  have hcont : cs.contains sel = true := by simpa using hmem
  unfold recordChat
  split
  · rfl
  · simp only [hu, hcs, hcont, Bool.not_true, Bool.false_eq_true, if_false]

/-- C18 fails as stated: alice, freshly signed up with an empty `chatsData`
array, opens her conversation with bob; the call succeeds, and her
`chatsData` array is still empty, so it does not contain exactly one entry
whose `messageId` is the conversation id. -/
theorem opening_creates_no_chatList_entry :
    (handleChatClick exampleClickEnv exampleFreshStore).toasts = [] ∧
    (handleChatClick exampleClickEnv exampleFreshStore).selected = true ∧
    (handleChatClick exampleClickEnv exampleFreshStore).messagesId = some "alice_bob" ∧
    (handleChatClick exampleClickEnv exampleFreshStore).store.chats.lookup "alice" = some [] ∧
    ((((handleChatClick exampleClickEnv exampleFreshStore).store.chats.lookup "alice").getD
        []).filter (fun c => c.messageId == "alice_bob")).length ≠ 1 := by
  decide

/-- C18 amended: `handleChatClick` never writes a `chatsData` array.  What a
successful open by `cur` on `sel` records is the id `sel` in the `chats`
array of the document `users/cur`: afterwards that array contains `sel`,
exactly once if it held it at most once before, and opening the same
conversation again leaves the collection `users` (and the `chatsData` arrays)
unchanged. -/
theorem handleChatClick_records_in_user_chats (env : ClickEnv) (store : Store)
    (cur sel : String) (u : UserDoc)
    (hcur : env.currentUserId = some cur) (hsel : env.selectedUserId = some sel)
    (hc : cur ≠ "") (hs : sel ≠ "")
    (hu : store.users.lookup cur = some u)
    (hok : (handleChatClick env store).toasts = []) :
    (handleChatClick env store).store.chats = store.chats ∧
    (∃ (u1 : UserDoc) (cs1 : List String),
      (handleChatClick env store).store.users.lookup cur = some u1 ∧
      u1.chats = some cs1 ∧ sel ∈ cs1 ∧
      ((u.chats.getD []).count sel ≤ 1 → cs1.count sel = 1)) ∧
    (handleChatClick env (handleChatClick env store).store).store.users
      = (handleChatClick env store).store.users ∧
    (handleChatClick env (handleChatClick env store).store).store.chats = store.chats := by
  have hg : (!truthy env.currentUserId || !truthy env.selectedUserId) = false := by
    simp [hcur, hsel, truthy, hc, hs]
  obtain ⟨st1, hst1, husers, hrec⟩ := handleChatClick_users_of_ok env store hg hok
  rw [hcur, hsel] at husers hrec
  simp only [Option.getD_some] at husers hrec
  have hu1 : st1.users.lookup cur = some u := by rw [hst1]; exact hu
  obtain ⟨u1, cs1, hl1, hch1, hmem1, hcount1⟩ :=
    recordChat_users_recorded env cur sel st1 u hu1 hrec
  rw [← husers] at hl1
  refine ⟨handleChatClick_store_chats env store, ⟨u1, cs1, hl1, hch1, hmem1, hcount1⟩, ?_, ?_⟩
  · rcases handleChatClick_store_users env (handleChatClick env store).store with
      hsame | ⟨st2, hst2, husers2, _⟩
    · exact hsame
    · rw [hcur, hsel] at husers2
      simp only [Option.getD_some] at husers2
      have hl2 : st2.users.lookup cur = some u1 := by rw [hst2]; exact hl1
      rw [husers2, recordChat_users_unchanged env cur sel st2 u1 cs1 hl2 hch1 hmem1, hst2]
  · rw [handleChatClick_store_chats, handleChatClick_store_chats]

theorem handleChatClick_records_in_user_chats_witness :
    (handleChatClick exampleClickEnv exampleFreshStore).store.chats = exampleFreshStore.chats ∧
    ∃ (u1 : UserDoc) (cs1 : List String),
      (handleChatClick exampleClickEnv exampleFreshStore).store.users.lookup "alice"
        = some u1 ∧
      u1.chats = some cs1 ∧ "bob" ∈ cs1 :=
  let h := handleChatClick_records_in_user_chats exampleClickEnv exampleFreshStore
    "alice" "bob" { chats := none, friends := ["bob"], notifications := [] }
    rfl rfl (by decide) (by decide) (by decide) (by decide)
  let ⟨u1, cs1, h1, h2, h3, _⟩ := h.2.1
  ⟨h.1, u1, cs1, h1, h2, h3⟩

/-! ## `sendFriendRequest` -/

/-- C20: `sendFriendRequest` throws "Sender ID is required" when `sender.uid`
is absent, otherwise "Recipient ID is required" when `recipientId` is absent,
and in both cases the store is as it was (no request record, no
notification); when both ids are present and the store accepts the two writes
it throws nothing; so, with a store that accepts the writes, it fails if and
only if an id is absent. -/
theorem sendFriendRequest_fails_iff_id_absent (env : FriendEnv) (sender : Option Sender)
    (recipientId : Option String) (store : Store) :
    (truthy (sender.bind (fun sd => sd.uid)) = false →
      sendFriendRequest env sender recipientId store
        = { store := store, thrown := some "Sender ID is required" }) ∧
    (truthy (sender.bind (fun sd => sd.uid)) = true → truthy recipientId = false →
      sendFriendRequest env sender recipientId store
        = { store := store, thrown := some "Recipient ID is required" }) ∧
    (truthy (sender.bind (fun sd => sd.uid)) = true → truthy recipientId = true →
      (∀ c : FriendCall, env.fails c = none) →
      (store.users.lookup (recipientId.getD "")).isSome = true →
      (sendFriendRequest env sender recipientId store).thrown = none) ∧
    ((∀ c : FriendCall, env.fails c = none) →
      (truthy recipientId = true →
        (store.users.lookup (recipientId.getD "")).isSome = true) →
      ((sendFriendRequest env sender recipientId store).thrown ≠ none ↔
        (truthy (sender.bind (fun sd => sd.uid)) = false ∨ truthy recipientId = false))) := by
  have hok : truthy (sender.bind (fun sd => sd.uid)) = true → truthy recipientId = true →
      (∀ c : FriendCall, env.fails c = none) →
      (store.users.lookup (recipientId.getD "")).isSome = true →
      (sendFriendRequest env sender recipientId store).thrown = none := by
    intro hs hr hf hdoc
    obtain ⟨u, hu⟩ := Option.isSome_iff_exists.mp hdoc
    have hu' : List.lookup (recipientId.getD "") store.users = some u := hu
    simp [sendFriendRequest, hs, hr, hf, hu']
  refine ⟨?_, ?_, hok, ?_⟩
  · intro hs
    simp [sendFriendRequest, hs]
  · intro hs hr
    simp [sendFriendRequest, hs, hr]
  · intro hf hdoc
    cases hs : truthy (sender.bind (fun sd => sd.uid)) with
    | false => simp [sendFriendRequest, hs]
    | true =>
      cases hr : truthy recipientId with
      | false => simp [sendFriendRequest, hs, hr]
      | true =>
        have := hok hs hr hf (hdoc hr)
        simp [this]

theorem sendFriendRequest_fails_iff_id_absent_witness :
    (sendFriendRequest exampleFriendEnv (some exampleSender) (some "bob")
      exampleFreshStore).thrown = none :=
  (sendFriendRequest_fails_iff_id_absent exampleFriendEnv (some exampleSender) (some "bob")
    exampleFreshStore).2.2.1 (by decide) (by decide) (fun _ => rfl) (by decide)

/-! ## The `setMessages` updater evaluated twice -/

/-- C28, evaluated on the code: for the page [d4, d3] and the previous list
[m5], the first evaluation of the updater yields [m3, m4, m5] and leaves the
`newMessages` array reversed in place; a second evaluation on the same
previous list reverses it again and yields [m4, m3, m5], a different list
that is not the reversed page followed by the previous list. -/
theorem loadMoreUpdater_second_evaluation_differs :
    (loadMoreUpdater
        [toMessage (exampleDoc "d4" "bob" 40), toMessage (exampleDoc "d3" "alice" 30)]
        [toMessage (exampleDoc "d5" "alice" 50)]).2
      = [toMessage (exampleDoc "d3" "alice" 30), toMessage (exampleDoc "d4" "bob" 40),
         toMessage (exampleDoc "d5" "alice" 50)] ∧
    (loadMoreUpdater
        (loadMoreUpdater
          [toMessage (exampleDoc "d4" "bob" 40), toMessage (exampleDoc "d3" "alice" 30)]
          [toMessage (exampleDoc "d5" "alice" 50)]).1
        [toMessage (exampleDoc "d5" "alice" 50)]).2
      = [toMessage (exampleDoc "d4" "bob" 40), toMessage (exampleDoc "d3" "alice" 30),
         toMessage (exampleDoc "d5" "alice" 50)] ∧
    (loadMoreUpdater
        (loadMoreUpdater
          [toMessage (exampleDoc "d4" "bob" 40), toMessage (exampleDoc "d3" "alice" 30)]
          [toMessage (exampleDoc "d5" "alice" 50)]).1
        [toMessage (exampleDoc "d5" "alice" 50)]).2
      ≠ (loadMoreUpdater
        [toMessage (exampleDoc "d4" "bob" 40), toMessage (exampleDoc "d3" "alice" 30)]
        [toMessage (exampleDoc "d5" "alice" 50)]).2 := by
  decide

/-! ## `convertTimestamp` -/

/-- C29, evaluated on the code: noon is labelled "AM", midnight is shown with
hour 0, and a minute below 10 is shown with one digit. -/
theorem convertTimestamp_noon_midnight_and_padding :
    convertTimestamp 12 5 = "12:5 AM" ∧
    convertTimestamp 0 30 = "0:30 AM" ∧
    convertTimestamp 13 7 = "1:7 PM" ∧
    convertTimestamp 9 45 = "9:45 AM" := by
  decide

/-! ## The conversation id determines the pair -/

theorem split_at_first_underscore :
    ∀ (x x' y y' : List Char), '_' ∉ x → '_' ∉ x' →
      x ++ '_' :: y = x' ++ '_' :: y' → x = x' ∧ y = y' := by
  intro x
  induction x with
  | nil =>
    intro x' y y' _ hx' h
    cases x' with
    | nil =>
      simp only [List.nil_append, List.cons.injEq, true_and] at h
      exact ⟨rfl, h⟩
    | cons c cs =>
      simp only [List.nil_append, List.cons_append, List.cons.injEq] at h
      exact absurd (by rw [← h.1]; exact List.mem_cons_self _ _) hx'
  | cons a as ih =>
    intro x' y y' hx hx' h
    cases x' with
    | nil =>
      simp only [List.nil_append, List.cons_append, List.cons.injEq] at h
      exact absurd (by rw [h.1]; exact List.mem_cons_self _ _) hx
    | cons c cs =>
      simp only [List.cons_append, List.cons.injEq] at h
      have has : '_' ∉ as := fun hm => hx (List.mem_cons_of_mem _ hm)
      have hcs : '_' ∉ cs := fun hm => hx' (List.mem_cons_of_mem _ hm)
      obtain ⟨e1, e2⟩ := ih cs y y' has hcs h.2
      exact ⟨by rw [h.1, e1], e2⟩

theorem join_underscore_inj (x y x' y' : String)
    (hx : '_' ∉ x.data) (hx' : '_' ∉ x'.data)
    (h : x ++ "_" ++ y = x' ++ "_" ++ y') : x = x' ∧ y = y' := by
  have hd := congrArg String.data h
  simp only [String.data_append] at hd
  rw [List.append_assoc, List.append_assoc] at hd
  obtain ⟨e1, e2⟩ := split_at_first_underscore x.data x'.data y.data y'.data hx hx' hd
  exact ⟨String.ext e1, String.ext e2⟩

/-- C30: for user ids `a`, `b`, `c`, `d` that contain no "_" character, if the
conversation id computed for (a, b) equals the one computed for (c, d), then
the two pairs are the same pair, in the same or in the opposite order. -/
theorem conversation_id_determines_pair (a b c d : String)
    (ha : '_' ∉ a.data) (hb : '_' ∉ b.data) (hc : '_' ∉ c.data) (hd : '_' ∉ d.data)
    (h : sortJoin a b = sortJoin c d) :
    (a = c ∧ b = d) ∨ (a = d ∧ b = c) := by
  unfold sortJoin sortPair at h
  by_cases h1 : jsStringLt b a = true <;> by_cases h2 : jsStringLt d c = true
  · simp only [h1, h2, if_true] at h
    obtain ⟨e1, e2⟩ := join_underscore_inj b a d c hb hd h
    exact Or.inl ⟨e2, e1⟩
  · simp only [h1, h2, if_true, if_false] at h
    obtain ⟨e1, e2⟩ := join_underscore_inj b a c d hb hc h
    exact Or.inr ⟨e2, e1⟩
  · simp only [h1, h2, if_true, if_false] at h
    obtain ⟨e1, e2⟩ := join_underscore_inj a b d c ha hd h
    exact Or.inr ⟨e1, e2⟩
  · simp only [h1, h2, if_false] at h
    obtain ⟨e1, e2⟩ := join_underscore_inj a b c d ha hc h
    exact Or.inl ⟨e1, e2⟩

theorem conversation_id_determines_pair_witness :
    sortJoin "alice" "bob" = sortJoin "bob" "alice" ∧
    (("alice" = "bob" ∧ "bob" = "alice") ∨ ("alice" = "alice" ∧ "bob" = "bob")) :=
  ⟨by decide, conversation_id_determines_pair "alice" "bob" "bob" "alice"
    (by decide) (by decide) (by decide) (by decide) (by decide)⟩

/-! ## Accepting and rejecting a friend request -/

theorem updateUserDoc_of_ok (rejected : Option String) (uid : String)
    (f : UserDoc → UserDoc) (st : Store)
    (h : (updateUserDoc rejected uid f st).2 = false) :
    ∃ u : UserDoc, st.users.lookup uid = some u ∧
      (updateUserDoc rejected uid f st).1.users = putDoc uid (f u) st.users ∧
      (updateUserDoc rejected uid f st).1.friendRequests = st.friendRequests := by
  revert h
  unfold updateUserDoc
  split
  · intro h; simp at h
  · intro h; simp at h
  · rename_i u hu
    intro _
    exact ⟨u, hu, rfl, rfl⟩

theorem deletePendingRequests_users (env : NotifEnv) (sender : String) (st : Store) :
    (deletePendingRequests env sender st).1.users = st.users := by
  unfold deletePendingRequests
  split <;> rfl

theorem deletePendingRequests_none_left (env : NotifEnv) (sender : String) (st : Store)
    (h : (deletePendingRequests env sender st).2 = false) :
    ∀ p ∈ (deletePendingRequests env sender st).1.friendRequests,
      ¬ (p.2.senderId = sender ∧ p.2.recipientId = env.userId ∧ p.2.status = "pending") := by
  revert h
  unfold deletePendingRequests
  split
  · intro h; simp at h
  · intro h p hp hmatch
    simp only [List.any_eq_false, List.mem_filter, Bool.and_eq_true, beq_iff_eq,
      and_imp, Prod.forall] at h
    simp only [List.mem_filter, Bool.or_eq_true, Bool.not_eq_true', Bool.and_eq_false_imp,
      beq_iff_eq] at hp
    obtain ⟨hmem, hkeep⟩ := hp
    obtain ⟨k, r⟩ := p
    have hnf := h k r hmem hmatch.1 hmatch.2.1 hmatch.2.2
    rcases hkeep with hk | hk
    · have hm1 : r.senderId = sender := hmatch.1
      have hm2 : r.recipientId = env.userId := hmatch.2.1
      have hm3 : r.status = "pending" := hmatch.2.2
      have h1 : (r.senderId == sender && r.recipientId == env.userId) = true := by
        simp [hm1, hm2]
      have h2 := hk h1
      simp [hm3] at h2
    · exact hnf hk

theorem deletePendingRequests_of_eq (env : NotifEnv) (sender : String) (st : Store)
    (res : Store × Bool) (hres : deletePendingRequests env sender st = res)
    (hok : res.2 = false) :
    res.1.users = st.users ∧
    ∀ p ∈ res.1.friendRequests,
      ¬ (p.2.senderId = sender ∧ p.2.recipientId = env.userId ∧ p.2.status = "pending") := by
  subst hres
  exact ⟨deletePendingRequests_users env sender st,
    deletePendingRequests_none_left env sender st hok⟩

theorem handleAcceptRequest_of_ok (env : NotifEnv) (n : Notification) (store : Store)
    (hok : (handleAcceptRequest env n store).successes ≠ []) :
    ∃ (senderData u u2 : UserDoc),
      store.users.lookup n.«from» = some senderData ∧
      store.users.lookup env.userId = some u ∧
      (putDoc env.userId
          { u with friends := env.userFriends.getD [] ++ [n.«from»]
                   notifications := arrayRemove u.notifications n }
          store.users).lookup n.«from» = some u2 ∧
      (handleAcceptRequest env n store).store.users
        = putDoc n.«from» { u2 with friends := senderData.friends ++ [env.userId] }
            (putDoc env.userId
              { u with friends := env.userFriends.getD [] ++ [n.«from»]
                       notifications := arrayRemove u.notifications n }
              store.users) ∧
      (∀ p ∈ (handleAcceptRequest env n store).store.friendRequests,
        ¬ (p.2.senderId = n.«from» ∧ p.2.recipientId = env.userId ∧
            p.2.status = "pending")) := by
  revert hok
  unfold handleAcceptRequest
  split
  · intro hok; simp at hok
  · dsimp only
    split
    · intro hok; simp at hok
    · intro hok; simp at hok
    · rename_i senderData _ hsender
      split
      · intro hok; simp at hok
      · rename_i hw
        simp only [Bool.or_eq_true, not_or, Bool.not_eq_true] at hw
        obtain ⟨hw1, hw2⟩ := hw
        obtain ⟨u, hu, hus1, _⟩ := updateUserDoc_of_ok _ _ _ _ hw1
        obtain ⟨u2, hu2, hus2, _⟩ := updateUserDoc_of_ok _ _ _ _ hw2
        rw [hus1] at hu2 hus2
        split
        · intro hok; simp at hok
        · rename_i st3 hdel
          intro _
          obtain ⟨hdu, hdn⟩ := deletePendingRequests_of_eq env n.«from» _ _ hdel rfl
          exact ⟨senderData, u, u2, hsender, hu, hu2, hdu.trans hus2, hdn⟩

/-- C21: when `handleAcceptRequest` of B for the notification of a request
from A ends with the success toast (every write succeeded), the stored
`friends` of B contain A and the stored `friends` of A contain B. -/
theorem accept_makes_both_friends (env : NotifEnv) (n : Notification) (store : Store)
    (hok : (handleAcceptRequest env n store).successes = ["Friend request accepted!"]) :
    (∃ u : UserDoc, (handleAcceptRequest env n store).store.users.lookup env.userId = some u ∧
      n.«from» ∈ u.friends) ∧
    (∃ u : UserDoc, (handleAcceptRequest env n store).store.users.lookup n.«from» = some u ∧
      env.userId ∈ u.friends) := by
  obtain ⟨senderData, u, u2, _, _, hu2, husers, _⟩ :=
    handleAcceptRequest_of_ok env n store (by rw [hok]; simp)
  rw [husers]
  constructor
  · by_cases hsame : env.userId = n.«from»
    · refine ⟨_, by rw [hsame]; exact lookup_putDoc_self _ _ _, ?_⟩
      simp [hsame]
    · refine ⟨_, (lookup_putDoc_other _ _ _ _ hsame).trans (lookup_putDoc_self _ _ _), ?_⟩
      simp
  · exact ⟨_, lookup_putDoc_self _ _ _, by simp⟩

theorem accept_makes_both_friends_witness :
    (∃ u : UserDoc,
      (handleAcceptRequest exampleNotifEnv (exampleNotification "alice")
        exampleRequestsStore).store.users.lookup "bob" = some u ∧ "alice" ∈ u.friends) ∧
    (∃ u : UserDoc,
      (handleAcceptRequest exampleNotifEnv (exampleNotification "alice")
        exampleRequestsStore).store.users.lookup "alice" = some u ∧ "bob" ∈ u.friends) :=
  accept_makes_both_friends exampleNotifEnv (exampleNotification "alice")
    exampleRequestsStore (by decide)

theorem not_mem_arrayRemove {α : Type} [DecidableEq α] (xs : List α) (x : α) :
    x ∉ arrayRemove xs x := by
  simp [arrayRemove]

theorem handleRejectRequest_of_ok (env : NotifEnv) (n : Notification) (store : Store)
    (hok : (handleRejectRequest env n store).infos ≠ []) :
    ∃ u : UserDoc,
      store.users.lookup env.userId = some u ∧
      (handleRejectRequest env n store).store.users
        = putDoc env.userId { u with notifications := arrayRemove u.notifications n }
            store.users ∧
      (∀ p ∈ (handleRejectRequest env n store).store.friendRequests,
        ¬ (p.2.senderId = n.«from» ∧ p.2.recipientId = env.userId ∧
            p.2.status = "pending")) := by
  revert hok
  unfold handleRejectRequest
  split
  · intro hok; simp at hok
  · dsimp only
    split
    · intro hok; simp at hok
    · rename_i st1 hw
      have hw1 : (updateUserDoc (env.fails NotifCall.updateUser) env.userId
          (fun u => { u with notifications := arrayRemove u.notifications n }) store).2
          = false := by rw [hw]
      obtain ⟨u, hu, hus1, _⟩ := updateUserDoc_of_ok _ _ _ _ hw1
      rw [hw] at hus1
      split
      · intro hok; simp at hok
      · rename_i st2 hdel
        intro _
        obtain ⟨hdu, hdn⟩ := deletePendingRequests_of_eq env n.«from» _ _ hdel rfl
        exact ⟨u, hu, hdu.trans hus1, hdn⟩

/-- C23: after a successful `handleAcceptRequest` or `handleRejectRequest` of
B for the notification `n` of a request from A, `n` is not in the stored
notifications of B and no friend-request record with `senderId` A,
`recipientId` B and status "pending" is left; a successful reject leaves the
`friends` of every user document as they were. -/
theorem accept_or_reject_clears_request (env : NotifEnv) (n : Notification)
    (store : Store) :
    ((handleAcceptRequest env n store).successes = ["Friend request accepted!"] →
      (∀ u : UserDoc,
        (handleAcceptRequest env n store).store.users.lookup env.userId = some u →
        n ∉ u.notifications) ∧
      (∀ p ∈ (handleAcceptRequest env n store).store.friendRequests,
        ¬ (p.2.senderId = n.«from» ∧ p.2.recipientId = env.userId ∧
            p.2.status = "pending"))) ∧
    ((handleRejectRequest env n store).infos = ["Friend request rejected"] →
      (∀ u : UserDoc,
        (handleRejectRequest env n store).store.users.lookup env.userId = some u →
        n ∉ u.notifications) ∧
      (∀ p ∈ (handleRejectRequest env n store).store.friendRequests,
        ¬ (p.2.senderId = n.«from» ∧ p.2.recipientId = env.userId ∧
            p.2.status = "pending")) ∧
      (∀ uid : String,
        ((handleRejectRequest env n store).store.users.lookup uid).map (fun u => u.friends)
          = (store.users.lookup uid).map (fun u => u.friends))) := by
  constructor
  · intro hok
    obtain ⟨senderData, u, u2, _, _, hu2, husers, hreq⟩ :=
      handleAcceptRequest_of_ok env n store (by rw [hok]; simp)
    refine ⟨?_, hreq⟩
    intro v hv
    rw [husers] at hv
    by_cases hsame : env.userId = n.«from»
    · rw [hsame, lookup_putDoc_self] at hv
      rw [← hsame, lookup_putDoc_self] at hu2
      cases hu2
      cases hv
      exact not_mem_arrayRemove _ _
    · rw [lookup_putDoc_other _ _ _ _ hsame, lookup_putDoc_self] at hv
      cases hv
      exact not_mem_arrayRemove _ _
  · intro hok
    obtain ⟨u, hu, husers, hreq⟩ :=
      handleRejectRequest_of_ok env n store (by rw [hok]; simp)
    refine ⟨?_, hreq, ?_⟩
    · intro v hv
      rw [husers, lookup_putDoc_self] at hv
      cases hv
      exact not_mem_arrayRemove _ _
    · intro uid
      rw [husers]
      by_cases hsame : uid = env.userId
      · rw [hsame, lookup_putDoc_self, hu]
        rfl
      · rw [lookup_putDoc_other _ _ _ _ hsame]

theorem accept_or_reject_clears_request_witness :
    (∀ u : UserDoc,
      (handleRejectRequest exampleNotifEnv (exampleNotification "alice")
        exampleRequestsStore).store.users.lookup "bob" = some u →
      exampleNotification "alice" ∉ u.notifications) ∧
    (∀ u : UserDoc,
      (handleAcceptRequest exampleNotifEnv (exampleNotification "alice")
        exampleRequestsStore).store.users.lookup "bob" = some u →
      exampleNotification "alice" ∉ u.notifications) :=
  ⟨((accept_or_reject_clears_request exampleNotifEnv (exampleNotification "alice")
      exampleRequestsStore).2 (by decide)).1,
   ((accept_or_reject_clears_request exampleNotifEnv (exampleNotification "alice")
      exampleRequestsStore).1 (by decide)).1⟩

/-- C22, evaluated on the code: bob's context was loaded while his stored
`friends` were empty.  He accepts alice's request and then, in the same
session, carol's; both calls succeed.  After the first his stored `friends`
are [alice]; after the second they are [carol]: alice, who was stored, is
gone, although alice's own `friends` still hold bob.  And when the context
already lists alice, accepting a request from alice stores her twice. -/
theorem second_accept_drops_first_friend :
    (handleAcceptRequest exampleNotifEnv (exampleNotification "alice")
        exampleRequestsStore).successes = ["Friend request accepted!"] ∧
    ((handleAcceptRequest exampleNotifEnv (exampleNotification "alice")
        exampleRequestsStore).store.users.lookup "bob").map (fun u => u.friends)
      = some ["alice"] ∧
    (handleAcceptRequest exampleNotifEnv (exampleNotification "carol")
        (handleAcceptRequest exampleNotifEnv (exampleNotification "alice")
          exampleRequestsStore).store).successes = ["Friend request accepted!"] ∧
    ((handleAcceptRequest exampleNotifEnv (exampleNotification "carol")
        (handleAcceptRequest exampleNotifEnv (exampleNotification "alice")
          exampleRequestsStore).store).store.users.lookup "bob").map (fun u => u.friends)
      = some ["carol"] ∧
    ((handleAcceptRequest exampleNotifEnv (exampleNotification "carol")
        (handleAcceptRequest exampleNotifEnv (exampleNotification "alice")
          exampleRequestsStore).store).store.users.lookup "alice").map (fun u => u.friends)
      = some ["bob"] ∧
    ((handleAcceptRequest { exampleNotifEnv with userFriends := some ["alice"] }
        (exampleNotification "alice")
        exampleRequestsStore).store.users.lookup "bob").map (fun u => u.friends)
      = some ["alice", "alice"] := by
  decide

/-! ## The chat list of the sidebar -/

/-- C24, evaluated on the code: the persisted entries are built from user
documents as `signup` writes them, which have no field `uid`.  With persisted
entries for bob and carol (different `rId`) and bob also in the friends list,
the composed list is the persisted entry of bob followed by the
friend-derived entry of bob: the persisted entry of carol is dropped although
no earlier entry names carol, and bob appears twice. -/
theorem allChats_drops_and_duplicates :
    allChats
        [chatDataItem (examplePersistedEntry "bob") (signupUserData "bob" "Bob" 1000),
         chatDataItem (examplePersistedEntry "carol") (signupUserData "carol" "Carol" 1000)]
        [friendItem "bob" (signupUserData "bob" "Bob" 1000)]
      = [chatDataItem (examplePersistedEntry "bob") (signupUserData "bob" "Bob" 1000),
         friendItem "bob" (signupUserData "bob" "Bob" 1000)] ∧
    (allChats
        [chatDataItem (examplePersistedEntry "bob") (signupUserData "bob" "Bob" 1000),
         chatDataItem (examplePersistedEntry "carol") (signupUserData "carol" "Carol" 1000)]
        [friendItem "bob" (signupUserData "bob" "Bob" 1000)]).map (fun c => c.userData.id)
      = [some "bob", some "bob"] ∧
    (examplePersistedEntry "bob").rId ≠ (examplePersistedEntry "carol").rId := by
  decide

/-- C25, evaluated on the code: of two entries without unread messages, one
has a last message at 1 700 000 000 seconds (November 2023) and the other was
only last seen at 1 600 000 000 000 milliseconds (September 2020).  The first
has the later activity as an instant in time, but the comparator subtracts the
raw numbers, so the sorted list puts the second one first. -/
theorem sortedChats_mixes_seconds_and_milliseconds :
    lastActivity exampleMessageItem = 1700000000 ∧
    lastActivity examplePresenceItem = 1600000000000 ∧
    1600000000000 < 1700000000 * 1000 ∧
    jsOrNat exampleMessageItem.unreadCount 0 = 0 ∧
    jsOrNat examplePresenceItem.unreadCount 0 = 0 ∧
    sortedChats [] [exampleMessageItem, examplePresenceItem]
      = [examplePresenceItem, exampleMessageItem] := by
  decide

/-! ## Typing status -/

theorem updateTypingStatus_frame (env : TypingEnv) (now : Nat) (b : Bool) (s : TypingState) :
    (updateTypingStatus env now b s).timers = s.timers ∧
    (updateTypingStatus env now b s).typingTimeoutRef = s.typingTimeoutRef ∧
    (updateTypingStatus env now b s).nextHandle = s.nextHandle := by
  unfold updateTypingStatus
  split <;> exact ⟨rfl, rfl, rfl⟩

theorem updateTypingStatus_lookup (env : TypingEnv) (now : Nat) (s : TypingState)
    (h : env.storeAccepts = true) :
    (updateTypingStatus env now false s).typing.lookup env.userId = some none := by
  unfold updateTypingStatus
  rw [if_pos h]
  exact lookup_putDoc_self env.userId _ s.typing

theorem onInputChange_timers (env : TypingEnv) (t : Nat) (s : TypingState)
    (hid : truthy env.messagesId = true) (hs : SingleTimer s) :
    (onInputChange env t s).timers = [(s.nextHandle, t + 3000)] ∧
    (onInputChange env t s).typingTimeoutRef = some s.nextHandle := by
  obtain ⟨ht, hr, hn⟩ := updateTypingStatus_frame env t true s
  unfold onInputChange
  rw [if_pos hid]
  dsimp only
  rcases hs with hnil | ⟨h, d, htimers, href⟩
  · cases hc : s.typingTimeoutRef with
    | none =>
      rw [hr, hc]
      simp [ht, hn, hnil]
    | some h =>
      rw [hr, hc]
      simp [clearTimeout, ht, hn, hnil]
  · rw [hr, href]
    simp [clearTimeout, ht, hn, htimers]

theorem singleTimer_stepTyping (env : TypingEnv) (s : TypingState) (e : TypingEvent)
    (hs : SingleTimer s) : SingleTimer (stepTyping env s e) := by
  cases e with
  | keystroke t =>
    by_cases hid : truthy env.messagesId = true
    · obtain ⟨h1, h2⟩ := onInputChange_timers env t s hid hs
      exact Or.inr ⟨_, _, h1, h2⟩
    · have : stepTyping env s (TypingEvent.keystroke t) = s := by
        simp [stepTyping, onInputChange, hid]
      rw [this]
      exact hs
  | advance now =>
    have hfold : ∀ (l : List (Nat × Nat)) (acc : TypingState),
        (l.foldl (fun acc _ => updateTypingStatus env now false acc) acc).timers = acc.timers ∧
        (l.foldl (fun acc _ => updateTypingStatus env now false acc) acc).typingTimeoutRef
          = acc.typingTimeoutRef := by
      intro l
      induction l with
      | nil => intro acc; exact ⟨rfl, rfl⟩
      | cons x xs ih =>
        intro acc
        obtain ⟨h1, h2, _⟩ := updateTypingStatus_frame env now false acc
        obtain ⟨i1, i2⟩ := ih (updateTypingStatus env now false acc)
        exact ⟨i1.trans h1, i2.trans h2⟩
    simp only [stepTyping, fireDueTimers]
    obtain ⟨f1, f2⟩ := hfold (s.timers.filter (fun p => decide (p.2 ≤ now)))
      { s with timers := s.timers.filter (fun p => !decide (p.2 ≤ now)) }
    unfold SingleTimer
    rw [f1, f2]
    rcases hs with hnil | ⟨h, d, htimers, href⟩
    · left; simp [hnil]
    · by_cases hd : d ≤ now
      · left; simp [htimers, hd]
      · right; exact ⟨h, d, by simp [htimers, hd], href⟩
  | unmount t =>
    simp only [stepTyping, typingCleanup]
    have hframe : ∀ s1 : TypingState, s1.timers = s.timers →
        s1.typingTimeoutRef = s.typingTimeoutRef →
        SingleTimer (match s1.typingTimeoutRef with
          | some h => clearTimeout h s1
          | none => s1) := by
      intro s1 h1 h2
      rcases hs with hnil | ⟨h, d, htimers, href⟩
      · left
        cases hc : s1.typingTimeoutRef with
        | none => simp [h1, hnil]
        | some h => simp [clearTimeout, h1, hnil]
      · left
        rw [h2, href]
        simp [clearTimeout, h1, htimers]
    split_ifs
    · obtain ⟨u1, u2, _⟩ := updateTypingStatus_frame env t false s
      exact hframe _ u1 u2
    · exact hframe s rfl rfl

theorem singleTimer_runTyping (env : TypingEnv) (es : List TypingEvent) :
    ∀ s : TypingState, SingleTimer s → SingleTimer (runTyping env s es) := by
  induction es with
  | nil => intro s hs; exact hs
  | cons e es ih =>
    intro s hs
    exact ih (stepTyping env s e) (singleTimer_stepTyping env s e hs)

theorem fireDueTimers_single (env : TypingEnv) (now h d : Nat) (s : TypingState)
    (hs : s.timers = [(h, d)]) :
    (now < d → (fireDueTimers env now s).timers = [(h, d)]) ∧
    (d ≤ now → (fireDueTimers env now s).timers = [] ∧
      (env.storeAccepts = true →
        (fireDueTimers env now s).typing.lookup env.userId = some none)) := by
  constructor
  · intro hlt
    have hd : ¬ d ≤ now := by omega
    simp [fireDueTimers, hs, hd]
  · intro hle
    have hstep : fireDueTimers env now s
        = updateTypingStatus env now false { s with timers := [] } := by
      simp [fireDueTimers, hs, hle]
    rw [hstep]
    exact ⟨(updateTypingStatus_frame env now false _).1,
      fun hacc => updateTypingStatus_lookup env now _ hacc⟩

/-- C26: in a chat view with a conversation id, after any sequence of
keystrokes, clock advances and cleanups at most one expiry timeout is
pending; right after a keystroke at time `t` exactly one is pending and its
deadline is `t + 3000`; it stays pending while the clock is below the deadline
and, when the clock reaches it, it fires and (the store accepting the write)
the user's entry in the `typing` map is null; the cleanup run at unmount
cancels the pending timeout and also writes null for that user. -/
theorem typing_flag_self_expires (env : TypingEnv) (es : List TypingEvent) (t now : Nat)
    (hid : truthy env.messagesId = true) :
    (runTyping env TypingState.initial es).timers.length ≤ 1 ∧
    (onInputChange env t (runTyping env TypingState.initial es)).timers
      = [((runTyping env TypingState.initial es).nextHandle, t + 3000)] ∧
    (now < t + 3000 →
      (fireDueTimers env now
        (onInputChange env t (runTyping env TypingState.initial es))).timers
        = [((runTyping env TypingState.initial es).nextHandle, t + 3000)]) ∧
    (t + 3000 ≤ now →
      (fireDueTimers env now
        (onInputChange env t (runTyping env TypingState.initial es))).timers = [] ∧
      (env.storeAccepts = true →
        (fireDueTimers env now
          (onInputChange env t (runTyping env TypingState.initial es))).typing.lookup
            env.userId = some none)) ∧
    (typingCleanup env now (runTyping env TypingState.initial es)).timers = [] ∧
    (env.storeAccepts = true → env.userId ≠ "" →
      (typingCleanup env now (runTyping env TypingState.initial es)).typing.lookup
        env.userId = some none) := by
  have hinv : SingleTimer (runTyping env TypingState.initial es) :=
    singleTimer_runTyping env es TypingState.initial (Or.inl rfl)
  generalize runTyping env TypingState.initial es = s at hinv ⊢
  obtain ⟨hk, _⟩ := onInputChange_timers env t s hid hinv
  obtain ⟨hf1, hf2⟩ := fireDueTimers_single env now s.nextHandle (t + 3000)
    (onInputChange env t s) hk
  refine ⟨?_, hk, hf1, hf2, ?_, ?_⟩
  · rcases hinv with hnil | ⟨h, d, htimers, _⟩
    · simp [hnil]
    · simp [htimers]
  · obtain ⟨u1, u2, _⟩ := updateTypingStatus_frame env now false s
    simp only [typingCleanup]
    rcases hinv with hnil | ⟨h, d, htimers, href⟩
    · split_ifs
      · rw [u2]
        cases hc : s.typingTimeoutRef with
        | none => simp [u1, hnil]
        | some h => simp [clearTimeout, u1, hnil]
      · cases hc : s.typingTimeoutRef with
        | none => simp [hnil]
        | some h => simp [clearTimeout, hnil]
    · split_ifs
      · rw [u2, href]
        simp [clearTimeout, u1, htimers]
      · rw [href]
        simp [clearTimeout, htimers]
  · intro hacc huser
    have hu : truthy (some env.userId) = true := by simp [truthy, huser]
    have hl := updateTypingStatus_lookup env now s hacc
    simp only [typingCleanup, hid, hu, Bool.and_self, if_true]
    split
    · simp only [clearTimeout]
      exact hl
    · exact hl

theorem typing_flag_self_expires_witness :
    (onInputChange exampleTypingEnv 5000
        (runTyping exampleTypingEnv TypingState.initial
          [TypingEvent.keystroke 1000, TypingEvent.keystroke 2000])).timers = [(3, 8000)] :=
  (typing_flag_self_expires exampleTypingEnv
    [TypingEvent.keystroke 1000, TypingEvent.keystroke 2000] 5000 9000 (by decide)).2.1

/-! ## `handleSubmit` of the profile modal -/

theorem submitProfile_writes (env : ProfileEnv) (s : ProfileState)
    (uploads : List ImageFile) (url : Option String) :
    (submitProfile env s uploads url).writes ≠ [] ∧
    (submitProfile env s uploads url).uploads = uploads := by
  unfold submitProfile
  dsimp only
  split_ifs <;> simp

theorem handleSubmit_of_valid (env : ProfileEnv) (s : ProfileState)
    (hl : s.loading = false) (hsub : s.isSubmitting = false)
    (hv : ProfileFormValid s.formData) :
    (handleSubmit env s).uploads ≠ [] ∨ (handleSubmit env s).writes ≠ [] := by
  obtain ⟨hname, hbio, hpw⟩ := hv
  have c1 : (s.loading || s.isSubmitting) = false := by simp [hl, hsub]
  have c2 : (!truthy (some (jsTrim s.formData.name))) = false := by simp [truthy, hname]
  have c3 : ¬ jsLength s.formData.bio > 250 := by omega
  have c4 : (truthy (some s.formData.password) && decide (jsLength s.formData.password < 6))
      = false := by
    rcases hpw with h | ⟨h, _⟩
    · simp [truthy, h]
    · have : ¬ jsLength s.formData.password < 6 := by omega
      simp [this]
  have c5 : (truthy (some s.formData.password)
      && s.formData.password != s.formData.confirmPassword) = false := by
    rcases hpw with h | ⟨_, h⟩
    · simp [truthy, h]
    · simp [← h]
  unfold handleSubmit
  simp only [c1, c2, c3, c4, c5, Bool.false_eq_true, if_false]
  cases hf : s.avatarFile with
  | none => exact Or.inr (submitProfile_writes env s [] _).1
  | some f =>
    simp only []
    cases hsvc : env.service f with
    | error msg => left; simp
    | url u => exact Or.inr (submitProfile_writes env s [f] _).1

theorem handleSubmit_of_rejected (env : ProfileEnv) (s : ProfileState)
    (h : (s.loading = true ∨ s.isSubmitting = true) ∨ ¬ ProfileFormValid s.formData) :
    (handleSubmit env s).uploads = [] ∧ (handleSubmit env s).writes = [] ∧
    (handleSubmit env s).passwordChanges = [] := by
  unfold handleSubmit
  by_cases c1 : (s.loading || s.isSubmitting) = true
  · rw [if_pos c1]; exact ⟨rfl, rfl, rfl⟩
  rw [if_neg c1]
  by_cases c2 : (!truthy (some (jsTrim s.formData.name))) = true
  · rw [if_pos c2]; exact ⟨rfl, rfl, rfl⟩
  rw [if_neg c2]
  by_cases c3 : jsLength s.formData.bio > 250
  · rw [if_pos c3]; exact ⟨rfl, rfl, rfl⟩
  rw [if_neg c3]
  by_cases c4 : (truthy (some s.formData.password)
      && decide (jsLength s.formData.password < 6)) = true
  · rw [if_pos c4]; exact ⟨rfl, rfl, rfl⟩
  rw [if_neg c4]
  by_cases c5 : (truthy (some s.formData.password)
      && s.formData.password != s.formData.confirmPassword) = true
  · rw [if_pos c5]; exact ⟨rfl, rfl, rfl⟩
  exfalso
  rcases h with h | h
  · rcases h with h | h <;> simp [h] at c1
  · apply h
    refine ⟨?_, by omega, ?_⟩
    · simpa [truthy] using c2
    · by_cases hp : s.formData.password = ""
      · exact Or.inl hp
      · right
        have ht : truthy (some s.formData.password) = true := by simp [truthy, hp]
        simp only [ht, Bool.true_and, decide_eq_true_eq, bne_iff_ne, ne_eq,
          Decidable.not_not] at c4 c5
        exact ⟨by omega, c5⟩

/-- C27 fails as stated: with a valid form but a submit already in progress,
`handleSubmit` attempts nothing. -/
theorem handleSubmit_ignores_valid_form_while_submitting :
    ProfileFormValid exampleProfileForm ∧
    (handleSubmit exampleProfileEnv
      { formData := exampleProfileForm, avatarFile := none, loading := false,
        isSubmitting := true }).writes = [] ∧
    (handleSubmit exampleProfileEnv
      { formData := exampleProfileForm, avatarFile := none, loading := false,
        isSubmitting := true }).uploads = [] ∧
    (handleSubmit exampleProfileEnv
      { formData := exampleProfileForm, avatarFile := none, loading := false,
        isSubmitting := true }).errors = [] := by
  refine ⟨?_, by decide, by decide, by decide⟩
  unfold ProfileFormValid
  decide

/-- C27 amended: `handleSubmit` attempts the profile update (posts the avatar
or writes the user document) if and only if no submit is in progress and the
form is valid: the name is non-blank after trimming, the bio has at most 250
code units, and the password is empty or has at least 6 code units and equals
the confirmation; while a submit is in progress and for every invalid form no
upload, no store write and no password change is performed. -/
theorem handleSubmit_attempts_iff_idle_and_valid (env : ProfileEnv) (s : ProfileState) :
    (((handleSubmit env s).uploads ≠ [] ∨ (handleSubmit env s).writes ≠ []) ↔
      (s.loading = false ∧ s.isSubmitting = false ∧ ProfileFormValid s.formData)) ∧
    ((s.loading = true ∨ s.isSubmitting = true) ∨ ¬ ProfileFormValid s.formData →
      (handleSubmit env s).uploads = [] ∧ (handleSubmit env s).writes = [] ∧
      (handleSubmit env s).passwordChanges = []) := by
  refine ⟨⟨?_, ?_⟩, handleSubmit_of_rejected env s⟩
  · intro hatt
    by_contra hno
    have hrej : (s.loading = true ∨ s.isSubmitting = true) ∨
        ¬ ProfileFormValid s.formData := by
      by_cases hl : s.loading = true
      · exact Or.inl (Or.inl hl)
      · by_cases hsub : s.isSubmitting = true
        · exact Or.inl (Or.inr hsub)
        · right
          intro hv
          exact hno ⟨by simpa using hl, by simpa using hsub, hv⟩
    obtain ⟨h1, h2, _⟩ := handleSubmit_of_rejected env s hrej
    rcases hatt with h | h
    · exact h h1
    · exact h h2
  · rintro ⟨hl, hsub, hv⟩
    exact handleSubmit_of_valid env s hl hsub hv

theorem handleSubmit_attempts_iff_idle_and_valid_witness :
    (handleSubmit exampleProfileEnv
      { formData := exampleProfileForm, avatarFile := none, loading := false,
        isSubmitting := false }).uploads ≠ [] ∨
    (handleSubmit exampleProfileEnv
      { formData := exampleProfileForm, avatarFile := none, loading := false,
        isSubmitting := false }).writes ≠ [] :=
  (handleSubmit_attempts_iff_idle_and_valid exampleProfileEnv
    { formData := exampleProfileForm, avatarFile := none, loading := false,
      isSubmitting := false }).1.2
    ⟨rfl, rfl, by unfold ProfileFormValid; decide⟩

end ChatApp
